import Mathlib

/-!
Shallow embedding of `src/world_generator.py` (procedural 2D platformer level
generator, template-method pattern with three biome generators) and proofs of
the specification claims about it.

Modelling conventions:
* Python ints are `Int`; Python `//` on a positive literal divisor is
  `Int.ediv` (floor division), `int(x * 0.10)`-style float truncations are
  `Int.tdiv` of the exact rational (the double rounding error never changes
  the truncated value for the magnitudes that occur here).
* The random number source is an abstract stream `Nat → Nat` together with a
  cursor; `random.randint a b` with `a ≤ b` returns `a + draw % (b - a + 1)`
  (the support, which is all that matters for the claims, is exactly the
  Python support) and raises (`Except.error`) when `b < a`, as in Python.
  `random.random()` is modelled with granularity 1/1000, which separates all
  thresholds used by the code (multiples of 0.05).
* Python exceptions are `Except.error`; `generate_world` therefore lives in
  the monad `GenM := Rng → Except String (α × Rng)`.
* `is_near_checkpoint` compares `sqrt ((x-cx)^2+(y-cy)^2) < radius` on
  floats; for integer inputs of this magnitude the comparison agrees exactly
  with the integer comparison `(x-cx)^2+(y-cy)^2 < radius^2`, which is what
  we use.
-/

/-- RGB colour triple. -/
abbrev RGB := Nat × Nat × Nat

/-- The per-world colour dictionary (`define_colors`). -/
structure WorldColors where
  sky : RGB
  ground : RGB
  platform : RGB
  hazard : RGB
  deriving DecidableEq, Repr, Inhabited

/-- Platform descriptor: `{'x','y','width','height'}`. -/
structure Platform where
  x : Int
  y : Int
  width : Int
  height : Int
  deriving DecidableEq, Repr, Inhabited

/-- Hazard (spike) descriptor; `on_platform` is the optional informational
flag of the Python dict (absent = `false`). -/
structure Spike where
  x : Int
  y : Int
  width : Int
  height : Int
  onPlatform : Bool
  deriving DecidableEq, Repr, Inhabited

/-- Checkpoint descriptor `{'x','y'}`. -/
structure Checkpoint where
  x : Int
  y : Int
  deriving DecidableEq, Repr, Inhabited

/-- Goal descriptor. -/
structure Goal where
  x : Int
  y : Int
  width : Int
  height : Int
  deriving DecidableEq, Repr, Inhabited

/-- Enemy descriptor. -/
structure Enemy where
  x : Int
  y : Int
  width : Int
  height : Int
  deriving DecidableEq, Repr, Inhabited

/-- Power-up types appearing in the three biome probability tables. -/
inductive PowerupType where
  | speed
  | jump
  | life
  deriving DecidableEq, Repr, Inhabited

/-- Power-up descriptor. -/
structure Powerup where
  x : Int
  y : Int
  width : Int
  height : Int
  type : PowerupType
  deriving DecidableEq, Repr, Inhabited

/-- The `world_data` dictionary returned by `generate_world`.  `slippery` and
`friction` are the two keys only the ice world adds (absent = `none`);
`friction = 0.3` is the rational value of the Python literal. -/
structure Blueprint where
  name : String
  colors : WorldColors
  platforms : List Platform
  spikes : List Spike
  checkpoints : List Checkpoint
  powerups : List Powerup
  enemies : List Enemy
  goal : Option Goal
  music : Option String
  slippery : Option Bool
  friction : Option ℚ
  deriving DecidableEq, Repr, Inhabited

/-! ## Module-level constants of `world_generator.py` -/

def SPACE_BETWEEN_CHECKPOINTS : Int := 800
def NUMBER_OF_CHECKPOINTS_PER_LEVEL : Nat := 3
def WORLD_MUSIC_PATH : String := "Assets/WorldMusic/"
def MAX_JUMP_DISTANCE : Int := 250
def MAX_JUMP_HEIGHT : Int := 130
def CHECKPOINT_SAFE_RADIUS : Int := 250
def MIN_VERTICAL_SPACING : Int := 80
def MIN_HORIZONTAL_SPACING : Int := 100
def ENEMY_SPAWN_CHANCE : Int := 350        -- 0.35, in thousandths of random()
def ENEMY_SPAWN_CHANCE_GROUND : Int := 200 -- 0.20, in thousandths of random()
def POWERUP_MIN_DISTANCE_CHECKPOINT : Int := 150
def POWERUP_MIN_DISTANCE_GOAL : Int := 250
def POWERUP_MIN_DISTANCE_ENEMY : Int := 120
def POWERUP_MIN_DISTANCE_POWERUP : Int := 200
def POWERUP_SAFE_ZONE : Int := 600

/-! ## The generation monad: random stream + Python exceptions -/

/-- State of the random source: a stream of abstract draws and a cursor. -/
structure Rng where
  idx : Nat
  stream : Nat → Nat

/-- The monad in which generation runs: state = `Rng`, exceptions = Python's
`ValueError` etc. -/
def GenM (α : Type) : Type := Rng → Except String (α × Rng)

instance : Monad GenM where
  pure a := fun s => .ok (a, s)
  bind m f := fun s =>
    match m s with
    | .error e => .error e
    | .ok (a, s') => f a s'

/-- Draw the next abstract random value from the stream. -/
def nextNat : GenM Nat := fun s => .ok (s.stream s.idx, ⟨s.idx + 1, s.stream⟩)

/-- Python `raise`: abort generation with an exception. -/
def genFail {α : Type} (msg : String) : GenM α := fun _ => .error msg

/-- `random.randint(a, b)`: uniform on `[a, b]`; raises `ValueError` when the
range is empty, exactly like Python. -/
def randint (a b : Int) : GenM Int :=
  if b < a then genFail "ValueError: empty range for randrange" else do
    let n ← nextNat
    pure (a + (n : Int) % (b - a + 1))

/-- `random.random()`: modelled in thousandths, i.e. the result `v ∈ [0, 999]`
stands for the float `v / 1000`; every probability threshold of the source
is a multiple of 0.05, so thresholds are compared as `v < 1000 * p`. -/
def randomUnit : GenM Int := do
  let n ← nextNat
  pure ((n : Int) % 1000)

/-- `random.choice` over a list of `k` elements: uniform index in `[0, k)`. -/
def choiceIdx (k : Nat) : GenM Nat := do
  let n ← nextNat
  pure (n % k)

/-- `random.sample` selection core: pick `k` distinct elements (selection
order), one uniform index at a time. -/
def sampleAux {α : Type} : List α → Nat → GenM (List α)
  | _, 0 => pure []
  | l, k + 1 => do
    let n ← nextNat
    match l with
    | [] => genFail "ValueError: sample larger than population"
    | a :: t =>
      let i := n % (a :: t).length
      let x := (a :: t).get ⟨i, Nat.mod_lt _ (Nat.succ_pos _)⟩
      let rest ← sampleAux ((a :: t).eraseIdx i) k
      pure (x :: rest)

/-- `random.sample(population, k)`: raises when `k` exceeds the population
size, as in Python. -/
def sampleList {α : Type} (l : List α) (k : Nat) : GenM (List α) :=
  if l.length < k then genFail "ValueError: sample larger than population"
  else sampleAux l k

/-- Python `range(a, b)` as a list of naturals. -/
def pyRange (a b : Nat) : List Nat := (List.range (b - a)).map (· + a)

/-! ## Auxiliary validators (`WorldGenerator` helper methods) -/

/-- `rectangles_overlap`: verbatim translation of
`not (x1 + w1 < x2 or x2 + w2 < x1 or y1 + h1 < y2 or y2 + h2 < y1)`. -/
def rectangles_overlap (x1 y1 w1 h1 x2 y2 w2 h2 : Int) : Bool :=
  !(x1 + w1 < x2 || x2 + w2 < x1 || y1 + h1 < y2 || y2 + h2 < y1)

/-- `is_near_checkpoint`: Euclidean distance to some checkpoint below
`radius` (squared-integer form of the float comparison; exact here). -/
def is_near_checkpoint (x y : Int) (checkpoints : List Checkpoint)
    (radius : Int) : Bool :=
  checkpoints.any fun c => (x - c.x) ^ 2 + (y - c.y) ^ 2 < radius ^ 2

/-- `is_platform_reachable`: translation of the source, including its
handling of the sign of `from_y - to_y`.  `to_width` is accepted and, as in
the source, never used. -/
def is_platform_reachable (from_x from_y to_x to_y to_width : Int) : Bool :=
  let _ := to_width
  let horizontal_dist := |to_x - from_x|
  if horizontal_dist > MAX_JUMP_DISTANCE then false
  else
    let vertical_dist := from_y - to_y
    if vertical_dist < 0 && |vertical_dist| > MAX_JUMP_HEIGHT then false
    else true

/-- `is_on_surface`: the spike's bottom edge is within tolerance 5 of the
ground or of the top edge of a platform whose horizontal span contains
`spike_x`.  (The third Python parameter is named `spike_width` but every
caller passes the spike height.) -/
def is_on_surface (spike_x spike_y spike_width : Int)
    (platforms : List Platform) (ground_y : Int) : Bool :=
  let spike_bottom := spike_y + spike_width
  if |spike_bottom - ground_y| < 5 then true
  else platforms.any fun p =>
    |spike_bottom - p.y| < 5 && spike_x ≥ p.x && spike_x ≤ p.x + p.width

/-! ## Shared template steps -/

/-- `generate_checkpoints`: deterministic, three checkpoints at
`i * 800` for `i = 1..3`, all at `height - 150`. -/
def generate_checkpoints (width height : Int) : List Checkpoint :=
  let _ := width
  (List.range NUMBER_OF_CHECKPOINTS_PER_LEVEL).map fun i =>
    { x := ((i : Int) + 1) * SPACE_BETWEEN_CHECKPOINTS, y := height - 150 }

/-- `add_goal`: fixed footprint at the bottom-right corner. -/
def add_goal (width height : Int) : Goal :=
  { x := width - 120, y := height - 300, width := 60, height := 250 }

/-! ## `add_enemies` (shared implementation) -/

/-- The pure per-candidate validations 5–8 of `add_enemies`: not near a
checkpoint (box 200/150 on the platform position), not near the goal
(box 300/150), and the final distance test against already placed enemies
is done by the caller (it needs the drawn `enemy_x`). -/
def enemy_platform_checks (p : Platform) (checkpoints : List Checkpoint)
    (goal : Option Goal) : Bool :=
  let nearCp := checkpoints.any fun c =>
    |p.x - c.x| < 200 && |p.y - c.y| < 150
  let nearGoal :=
    match goal with
    | some g => |p.x - g.x| < 300 && |p.y - g.y| < 150
    | none => false
  !nearCp && !nearGoal

/-- One pass of the `for platform in platforms` loop of `add_enemies`. -/
def add_enemies_loop (height : Int) (checkpoints : List Checkpoint)
    (goal : Option Goal) : List Platform → List Enemy → GenM (List Enemy)
  | [], acc => pure acc
  | p :: rest, acc => do
    -- VALIDACIÓN 1: safe zone; VALIDACIÓN 2: platform width
    if p.x < 500 || p.width < 80 then
      add_enemies_loop height checkpoints goal rest acc
    else do
      -- VALIDACIÓN 3/4: surface-dependent spawn probability
      let roll ← randomUnit
      let prob := if p.y ≥ height - 60 then ENEMY_SPAWN_CHANCE_GROUND
                  else ENEMY_SPAWN_CHANCE
      if roll > prob then
        add_enemies_loop height checkpoints goal rest acc
      else if !enemy_platform_checks p checkpoints goal then
        add_enemies_loop height checkpoints goal rest acc
      else
        -- VALIDACIÓN 7: interior margin
        let available_width := p.width - 2 * 40
        if available_width < 40 then
          add_enemies_loop height checkpoints goal rest acc
        else do
          let off ← randint 0 available_width
          let enemy_x := p.x + 40 + off
          let enemy_y := p.y - 50
          -- VALIDACIÓN 8: distance ≥ 100 to every placed enemy
          if acc.any (fun e => |enemy_x - e.x| < 100) then
            add_enemies_loop height checkpoints goal rest acc
          else
            add_enemies_loop height checkpoints goal rest
              (acc ++ [{ x := enemy_x, y := enemy_y, width := 40, height := 50 }])

/-- `add_enemies`: one evaluation per platform, no retries. -/
def add_enemies (width height : Int) (platforms : List Platform)
    (checkpoints : List Checkpoint) (goal : Option Goal) : GenM (List Enemy) :=
  let _ := width
  add_enemies_loop height checkpoints goal platforms []

/-! ## `add_powerups` (shared implementation) -/

/-- The platform search of the `'on_platform'` placement mode: the non-ground
platform (`y < height - 100`) whose `x` is strictly closest to the draw and
within 300 (first of equals wins), mirroring the `min_distance` fold. -/
def powerup_platform_search (height x : Int) :
    List Platform → Option (Int × Platform) → Option (Int × Platform)
  | [], best => best
  | p :: rest, best =>
    if p.y < height - 100 then
      let d := |p.x - x|
      match best with
      | none =>
        if d < 300 then powerup_platform_search height x rest (some (d, p))
        else powerup_platform_search height x rest none
      | some (dm, q) =>
        if d < dm && d < 300 then powerup_platform_search height x rest (some (d, p))
        else powerup_platform_search height x rest (some (dm, q))
    else powerup_platform_search height x rest best

/-- The four position validations of `add_powerups` (checkpoints, goal,
enemies, previously placed power-ups).  There is no validation against
hazards in the source. -/
def powerup_checks (x y : Int) (checkpoints : List Checkpoint)
    (goal : Option Goal) (enemies : List Enemy) (acc : List Powerup) : Bool :=
  let nearCp := checkpoints.any fun c =>
    |x - c.x| < POWERUP_MIN_DISTANCE_CHECKPOINT && |y - c.y| < 100
  let nearGoal :=
    match goal with
    | some g => |x - g.x| < POWERUP_MIN_DISTANCE_GOAL && |y - g.y| < 150
    | none => false
  let nearEnemy := enemies.any fun e => |x - e.x| < POWERUP_MIN_DISTANCE_ENEMY
  let nearPow := acc.any fun u => |x - u.x| < POWERUP_MIN_DISTANCE_POWERUP
  !nearCp && !nearGoal && !nearEnemy && !nearPow

/-- The bounded-retry loop of `add_powerups`; fuel = remaining attempts. -/
def add_powerups_loop (get_type : GenM PowerupType) (width height : Int)
    (platforms : List Platform) (checkpoints : List Checkpoint)
    (goal : Option Goal) (enemies : List Enemy) (num_powerups : Int) :
    Nat → List Powerup → GenM (List Powerup)
  | 0, acc => pure acc
  | fuel + 1, acc =>
    if (acc.length : Int) < num_powerups then do
      let x0 ← randint POWERUP_SAFE_ZONE (width - 200)
      let c ← choiceIdx 2
      -- c = 0: 'on_platform', c = 1: 'floating'
      let xy? ← if c = 0 then
          pure (match powerup_platform_search height x0 platforms none with
            | none => none
            | some (_, p) => some (p.x + p.width.ediv 2, p.y - 40))
        else do
          let y ← randint (height - 400) (height - 150)
          pure (some (x0, y))
      match xy? with
      | none =>
        add_powerups_loop get_type width height platforms checkpoints goal
          enemies num_powerups fuel acc
      | some (x, y) =>
        if powerup_checks x y checkpoints goal enemies acc then do
          let t ← get_type
          add_powerups_loop get_type width height platforms checkpoints goal
            enemies num_powerups fuel
            (acc ++ [{ x := x, y := y, width := 35, height := 35, type := t }])
        else
          add_powerups_loop get_type width height platforms checkpoints goal
            enemies num_powerups fuel acc
    else pure acc

/-- `add_powerups`: width-scaled target count, `target × 15` attempts. -/
def add_powerups (get_type : GenM PowerupType) (width height : Int)
    (platforms : List Platform) (checkpoints : List Checkpoint)
    (goal : Option Goal) (enemies : List Enemy) : GenM (List Powerup) := do
  let r ← randint 2 4
  let num_powerups := width.ediv 1000 + r
  add_powerups_loop get_type width height platforms checkpoints goal enemies
    num_powerups (num_powerups * 15).toNat []

/-! ## `GrassWorldGenerator` -/

/-- Grass power-up distribution: 40% speed, 30% jump, 30% life. -/
def grass_get_powerup_type : GenM PowerupType := do
  let rand ← randomUnit
  if rand < 400 then pure .speed      -- rand < 0.40
  else if rand < 700 then pure .jump  -- rand < 0.70
  else pure .life

/-- Grass colour scheme. -/
def grass_define_colors : WorldColors :=
  { sky := (135, 206, 235), ground := (34, 139, 34),
    platform := (101, 67, 33), hazard := (255, 0, 0) }

/-- Grass: VALIDACIÓN 3 of the segment loop — the two-tier spacing rule
(horizontal band 200 / vertical 80, vertical band 40 / horizontal 100). -/
def grass_too_close (x y : Int) (acc : List Platform) : Bool :=
  acc.any fun p =>
    (|x - p.x| < 200 && |y - p.y| < MIN_VERTICAL_SPACING) ||
    (|y - p.y| < 40 && |x - p.x| < MIN_HORIZONTAL_SPACING)

/-- Grass: VALIDACIÓN 4 of the segment loop — reachable from the ground
(via the reachability helper), from a previous platform, or backwards. -/
def grass_reachable (h x y pw seg_width : Int) (acc : List Platform) : Bool :=
  is_platform_reachable x (h - 50) x y pw ||
  (acc.any fun p => p.x < x + 350 &&
    is_platform_reachable (p.x + p.width) p.y x y pw) ||
  (acc.any fun p => p.x > x - 350 && p.x < x + seg_width &&
    is_platform_reachable p.x p.y x y pw)

/-- VALIDACIÓN 2 (all biomes): candidate overlaps no existing platform. -/
def overlaps_existing (x y pw ph : Int) (acc : List Platform) : Bool :=
  acc.any fun p => rectangles_overlap x y pw ph p.x p.y p.width p.height

/-- Final-platform filter (all biomes): only the spacing rule
(horizontal < `hband` and vertical < 80 rejects), not the overlap test. -/
def final_spacing_ok (cx cy hband : Int) (acc : List Platform) : Bool :=
  !(acc.any fun p => |cx - p.x| < hband && |cy - p.y| < MIN_VERTICAL_SPACING)

/-- Grass segment placement attempt loop (`while platforms_added <
num_platforms and attempts < 20`); fuel = remaining attempts. -/
def grass_segment_attempts (h : Int) (cps : List Checkpoint)
    (seg_start seg_end seg_width : Int) (num : Int) :
    Nat → Int → List Platform → GenM (List Platform)
  | 0, _, acc => pure acc
  | fuel + 1, added, acc =>
    if added < num then
      let margin_left := seg_width.tdiv 10          -- int(segment_width * 0.10)
      let margin_right := (seg_width * 15).tdiv 100 -- int(segment_width * 0.15)
      let available_width := seg_width - margin_left - margin_right
      if available_width < 100 then pure acc        -- break
      else do
        let x ← randint (seg_start + margin_left) (seg_end - margin_right)
        let y ← randint (h - 280) (h - 130)
        let platform_width ← randint 130 180
        if is_near_checkpoint x y cps CHECKPOINT_SAFE_RADIUS then
          grass_segment_attempts h cps seg_start seg_end seg_width num fuel added acc
        else if overlaps_existing x y platform_width 20 acc then
          grass_segment_attempts h cps seg_start seg_end seg_width num fuel added acc
        else if grass_too_close x y acc then
          grass_segment_attempts h cps seg_start seg_end seg_width num fuel added acc
        else if !grass_reachable h x y platform_width seg_width acc then
          grass_segment_attempts h cps seg_start seg_end seg_width num fuel added acc
        else
          grass_segment_attempts h cps seg_start seg_end seg_width num fuel
            (added + 1) (acc ++ [⟨x, y, platform_width, 20⟩])
    else pure acc

/-- Grass outer segment loop (`for segment in range(6)`); first `Nat` is the
current segment index, second the number of remaining segments. -/
def grass_segments (h : Int) (cps : List Checkpoint)
    (start_generation seg_width : Int) : Nat → Nat → List Platform → GenM (List Platform)
  | _, 0, acc => pure acc
  | seg, remaining + 1, acc => do
    let seg_start := start_generation + (seg : Int) * seg_width
    let seg_end := seg_start + seg_width
    let num ← randint 1 3
    let acc' ← grass_segment_attempts h cps seg_start seg_end seg_width num 20 0 acc
    grass_segments h cps start_generation seg_width (seg + 1) remaining acc'

/-- `GrassWorldGenerator.generate_platforms`. -/
def grass_generate_platforms (w h : Int) (cps : List Checkpoint) :
    GenM (List Platform) := do
  let ground : Platform := ⟨0, h - 50, w, 50⟩
  let platforms := [ground]
  -- 2. starting platforms (hand placed, filtered by the reachability helper)
  let spawn_x : Int := 100
  let spawn_y : Int := 100
  let first_platform : Platform := ⟨150, h - 150, 150, 20⟩
  let platforms :=
    if is_platform_reachable spawn_x spawn_y first_platform.x first_platform.y
        first_platform.width then platforms ++ [first_platform] else platforms
  let second_platform : Platform := ⟨350, h - 220, 130, 20⟩
  let platforms :=
    if is_platform_reachable first_platform.x first_platform.y
        second_platform.x second_platform.y second_platform.width then
      platforms ++ [second_platform] else platforms
  -- 3. distributed platforms
  let start_generation : Int := 600
  let end_generation := w - 400
  let generation_width := end_generation - start_generation
  let seg_width := generation_width.ediv 6
  let platforms ← grass_segments h cps start_generation seg_width 0 6 platforms
  -- 4. final platforms: checkpoint filter + spacing rule only
  let final_platform_1 : Platform := ⟨w - 400, h - 170, 150, 20⟩
  let platforms :=
    if !is_near_checkpoint final_platform_1.x final_platform_1.y cps
        CHECKPOINT_SAFE_RADIUS &&
       final_spacing_ok final_platform_1.x final_platform_1.y 200 platforms then
      platforms ++ [final_platform_1] else platforms
  let final_platform_2 : Platform := ⟨w - 220, h - 140, 120, 20⟩
  let platforms :=
    if !is_near_checkpoint final_platform_2.x final_platform_2.y cps
        CHECKPOINT_SAFE_RADIUS &&
       final_spacing_ok final_platform_2.x final_platform_2.y 200 platforms then
      platforms ++ [final_platform_2] else platforms
  pure platforms

/-- Candidate spike overlaps no existing spike (VALIDACIÓN 3 of hazards). -/
def spike_overlaps (x y sw sh : Int) (spikes : List Spike) : Bool :=
  spikes.any fun s => rectangles_overlap x y sw sh s.x s.y s.width s.height

/-- Grass individual ground-spike retry loop (5 attempts, stops on the first
placed spike). -/
def grass_spike_attempts (h : Int) (plats : List Platform)
    (cps : List Checkpoint) (zone_start zone_end : Int) :
    Nat → List Spike → GenM (List Spike)
  | 0, acc => pure acc
  | fuel + 1, acc => do
    let x ← randint (zone_start + 40) (zone_end - 40)
    let y := (h - 50) - 30
    if is_near_checkpoint x y cps 150 then
      grass_spike_attempts h plats cps zone_start zone_end fuel acc
    else if !is_on_surface x y 30 plats (h - 50) then
      grass_spike_attempts h plats cps zone_start zone_end fuel acc
    else if spike_overlaps x y 40 30 acc then
      grass_spike_attempts h plats cps zone_start zone_end fuel acc
    else pure (acc ++ [⟨x, y, 40, 30, false⟩])

/-- Grass ground-spike zone loop (`for zone in range(10)`, 25% gate). -/
def grass_spike_zones (h : Int) (plats : List Platform)
    (cps : List Checkpoint) (start_generation zone_width : Int) :
    Nat → Nat → List Spike → GenM (List Spike)
  | _, 0, acc => pure acc
  | zone, remaining + 1, acc => do
    let zone_start := start_generation + (zone : Int) * zone_width
    let zone_end := zone_start + zone_width
    let roll ← randomUnit
    let acc' ← if roll < 250 then   -- random() < 0.25
        grass_spike_attempts h plats cps zone_start zone_end 5 acc
      else pure acc
    grass_spike_zones h plats cps start_generation zone_width (zone + 1) remaining acc'

/-- Inner loop of a grass danger zone: two iterations, `spikes_added`
offsets the second spike by 50. -/
def grass_danger_inner (h : Int) (plats : List Platform)
    (cps : List Checkpoint) (zone_start : Int) :
    Nat → Int → List Spike → List Spike
  | 0, _, acc => acc
  | iter + 1, added, acc =>
    let x := zone_start + added * 50 + 40
    let y := (h - 50) - 32
    if is_near_checkpoint x y cps 150 then
      grass_danger_inner h plats cps zone_start iter added acc
    else if !is_on_surface x y 32 plats (h - 50) then
      grass_danger_inner h plats cps zone_start iter added acc
    else if spike_overlaps x y 38 32 acc then
      grass_danger_inner h plats cps zone_start iter added acc
    else
      grass_danger_inner h plats cps zone_start iter (added + 1)
        (acc ++ [⟨x, y, 38, 32, false⟩])

/-- One grass danger zone (fixed 2 spikes; zone-level checkpoint gate). -/
def grass_danger_zone (h : Int) (plats : List Platform)
    (cps : List Checkpoint) (start_generation zone_width : Int)
    (dz : Nat) (acc : List Spike) : List Spike :=
  let zone_start := start_generation + (dz : Int) * zone_width
  let zone_center_x := zone_start + zone_width.ediv 2
  let zone_center_y := (h - 50) - 32
  if is_near_checkpoint zone_center_x zone_center_y cps 200 then acc
  else grass_danger_inner h plats cps zone_start 2 0 acc

/-- Grass platform-top spikes: one spike per selected platform, centred,
only the spike-overlap check (no `is_on_surface` re-check). -/
def grass_platform_spikes (plats : List Platform) : List Platform →
    List Spike → List Spike
  | [], acc => acc
  | p :: rest, acc =>
    let _ := plats
    let spike_x := p.x + p.width.ediv 2 - 20
    let spike_y := p.y - 30
    if spike_overlaps spike_x spike_y 40 30 acc then
      grass_platform_spikes plats rest acc
    else grass_platform_spikes plats rest (acc ++ [⟨spike_x, spike_y, 40, 30, false⟩])

/-- `GrassWorldGenerator.generate_hazards`. -/
def grass_generate_hazards (w h : Int) (plats : List Platform)
    (cps : List Checkpoint) : GenM (List Spike) := do
  let start_generation : Int := 500
  let end_generation := w - 300
  let generation_width := end_generation - start_generation
  let zone_width := generation_width.ediv 10
  -- 4. individual ground spikes
  let spikes ← grass_spike_zones h plats cps start_generation zone_width 0 10 []
  -- 5. danger zones (the guard `num_zones >= 4` is the constant `10 >= 4`)
  let danger_zones ← sampleList (pyRange 2 9) 2    -- min(2, 10 - 3) = 2
  let spikes := danger_zones.foldl
    (fun acc dz => grass_danger_zone h plats cps start_generation zone_width dz acc)
    spikes
  -- 6. platform-top spikes (0–2 on easy level)
  let eligible_platforms := plats.filter fun p =>
    p.y < h - 100 && !is_near_checkpoint p.x p.y cps 200
  let n0 ← randint 0 2
  let num_platform_spikes := min n0.toNat eligible_platforms.length
  let selected_platforms ← sampleList eligible_platforms num_platform_spikes
  pure (grass_platform_spikes plats selected_platforms spikes)

/-! ## `DesertWorldGenerator` -/

/-- Desert power-up distribution: 50% jump, 25% speed, 25% life. -/
def desert_get_powerup_type : GenM PowerupType := do
  let rand ← randomUnit
  if rand < 500 then pure .jump       -- rand < 0.50
  else if rand < 750 then pure .speed -- rand < 0.75
  else pure .life

/-- Desert colour scheme. -/
def desert_define_colors : WorldColors :=
  { sky := (255, 218, 185), ground := (210, 180, 140),
    platform := (139, 90, 43), hazard := (255, 140, 0) }

/-- Desert spacing rule (220 horizontal band). -/
def desert_too_close (x y : Int) (acc : List Platform) : Bool :=
  acc.any fun p =>
    (|x - p.x| < 220 && |y - p.y| < MIN_VERTICAL_SPACING) ||
    (|y - p.y| < 40 && |x - p.x| < MIN_HORIZONTAL_SPACING)

/-- Desert reachability: hand-rolled ground-height test plus forward and
backward platform checks. -/
def desert_reachable (h x y pw seg_width : Int) (acc : List Platform) : Bool :=
  ((h - 50) - y ≤ MAX_JUMP_HEIGHT) ||
  (acc.any fun p => p.x < x + 350 &&
    is_platform_reachable (p.x + p.width) p.y x y pw) ||
  (acc.any fun p => p.x > x - 350 && p.x < x + seg_width &&
    is_platform_reachable p.x p.y x y pw)

/-- Desert segment placement attempt loop (25 attempts). -/
def desert_segment_attempts (h : Int) (cps : List Checkpoint)
    (seg_start seg_end seg_width : Int) (num : Int) :
    Nat → Int → List Platform → GenM (List Platform)
  | 0, _, acc => pure acc
  | fuel + 1, added, acc =>
    if added < num then
      let margin_left := (seg_width * 15).tdiv 100  -- int(segment_width * 0.15)
      let margin_right := (seg_width * 25).tdiv 100 -- int(segment_width * 0.25)
      let available_width := seg_width - margin_left - margin_right
      if available_width < 80 then pure acc         -- break
      else do
        let x ← randint (seg_start + margin_left) (seg_end - margin_right)
        let y ← randint (h - 300) (h - 130)
        let platform_width ← randint 100 140
        if is_near_checkpoint x y cps CHECKPOINT_SAFE_RADIUS then
          desert_segment_attempts h cps seg_start seg_end seg_width num fuel added acc
        else if overlaps_existing x y platform_width 18 acc then
          desert_segment_attempts h cps seg_start seg_end seg_width num fuel added acc
        else if desert_too_close x y acc then
          desert_segment_attempts h cps seg_start seg_end seg_width num fuel added acc
        else if !desert_reachable h x y platform_width seg_width acc then
          desert_segment_attempts h cps seg_start seg_end seg_width num fuel added acc
        else
          desert_segment_attempts h cps seg_start seg_end seg_width num fuel
            (added + 1) (acc ++ [⟨x, y, platform_width, 18⟩])
    else pure acc

/-- Desert outer segment loop (`for segment in range(7)`). -/
def desert_segments (h : Int) (cps : List Checkpoint)
    (start_generation seg_width : Int) : Nat → Nat → List Platform → GenM (List Platform)
  | _, 0, acc => pure acc
  | seg, remaining + 1, acc => do
    let seg_start := start_generation + (seg : Int) * seg_width
    let seg_end := seg_start + seg_width
    let num ← randint 1 2
    let acc' ← desert_segment_attempts h cps seg_start seg_end seg_width num 25 0 acc
    desert_segments h cps start_generation seg_width (seg + 1) remaining acc'

/-- Desert high floating platform attempt loop (15 attempts per selected
zone; success appends and stops). -/
def desert_high_attempts (h : Int) (cps : List Checkpoint)
    (start_generation seg_width : Int) (zone : Nat) :
    Nat → List Platform → GenM (List Platform)
  | 0, acc => pure acc
  | fuel + 1, acc => do
    let zone_center := start_generation + (zone : Int) * seg_width + seg_width.ediv 2
    let dy ← randint 280 350
    let high_y := h - dy
    let high_width ← randint 80 110
    let dx ← randint 30 70
    let high_x := zone_center - dx
    if is_near_checkpoint high_x high_y cps CHECKPOINT_SAFE_RADIUS then
      desert_high_attempts h cps start_generation seg_width zone fuel acc
    else if overlaps_existing high_x high_y high_width 18 acc then
      desert_high_attempts h cps start_generation seg_width zone fuel acc
    else if acc.any (fun p => |high_x - p.x| < 220 && |high_y - p.y| < MIN_VERTICAL_SPACING) then
      desert_high_attempts h cps start_generation seg_width zone fuel acc
    else if !(acc.any fun p => |p.x - high_x| < 400 &&
        is_platform_reachable p.x p.y high_x high_y high_width) then
      desert_high_attempts h cps start_generation seg_width zone fuel acc
    else pure (acc ++ [⟨high_x, high_y, high_width, 18⟩])

/-- Desert: loop over the zones selected for high platforms. -/
def desert_high_zones (h : Int) (cps : List Checkpoint)
    (start_generation seg_width : Int) : List Nat → List Platform → GenM (List Platform)
  | [], acc => pure acc
  | z :: rest, acc => do
    let acc' ← desert_high_attempts h cps start_generation seg_width z 15 acc
    desert_high_zones h cps start_generation seg_width rest acc'

/-- Desert high-platform section: draw the count, sample the zones, then
run the per-zone attempt loops (part 4 of `generate_platforms`; the guard
`num_segments > 2` is constant). -/
def desert_highs (h : Int) (cps : List Checkpoint)
    (start_generation seg_width : Int) (platforms : List Platform) :
    GenM (List Platform) := do
  let num_high ← randint 2 3
  let eligible_segments := pyRange 1 6
  let selected_segments ← sampleList eligible_segments
    (min num_high.toNat eligible_segments.length)
  desert_high_zones h cps start_generation seg_width selected_segments platforms

/-- `DesertWorldGenerator.generate_platforms`. -/
def desert_generate_platforms (w h : Int) (cps : List Checkpoint) :
    GenM (List Platform) := do
  let ground : Platform := ⟨0, h - 50, w, 50⟩
  let platforms := [ground]
  let spawn_x : Int := 100
  let spawn_y : Int := 100
  let first_platform : Platform := ⟨180, h - 180, 120, 18⟩
  let platforms :=
    if is_platform_reachable spawn_x spawn_y first_platform.x first_platform.y
        first_platform.width then platforms ++ [first_platform] else platforms
  let second_platform : Platform := ⟨380, h - 240, 110, 18⟩
  let platforms :=
    if is_platform_reachable first_platform.x first_platform.y
        second_platform.x second_platform.y second_platform.width then
      platforms ++ [second_platform] else platforms
  let start_generation : Int := 600
  let end_generation := w - 400
  let generation_width := end_generation - start_generation
  let seg_width := generation_width.ediv 7
  let platforms ← desert_segments h cps start_generation seg_width 0 7 platforms
  let platforms ← desert_highs h cps start_generation seg_width platforms
  -- 5. final platform
  let final_platform : Platform := ⟨w - 350, h - 190, 130, 18⟩
  let platforms :=
    if !is_near_checkpoint final_platform.x final_platform.y cps
        CHECKPOINT_SAFE_RADIUS &&
       final_spacing_ok final_platform.x final_platform.y 220 platforms then
      platforms ++ [final_platform] else platforms
  pure platforms

/-- Desert individual ground-spike retry loop (8 attempts). -/
def desert_spike_attempts (h : Int) (plats : List Platform)
    (cps : List Checkpoint) (zone_start zone_end : Int) :
    Nat → List Spike → GenM (List Spike)
  | 0, acc => pure acc
  | fuel + 1, acc => do
    let x ← randint (zone_start + 30) (zone_end - 30)
    let y := (h - 50) - 32
    if is_near_checkpoint x y cps 150 then
      desert_spike_attempts h plats cps zone_start zone_end fuel acc
    else if !is_on_surface x y 32 plats (h - 50) then
      desert_spike_attempts h plats cps zone_start zone_end fuel acc
    else if spike_overlaps x y 38 32 acc then
      desert_spike_attempts h plats cps zone_start zone_end fuel acc
    else pure (acc ++ [⟨x, y, 38, 32, false⟩])

/-- Desert ground-spike zone loop (12 zones, 45% gate). -/
def desert_spike_zones (h : Int) (plats : List Platform)
    (cps : List Checkpoint) (start_generation zone_width : Int) :
    Nat → Nat → List Spike → GenM (List Spike)
  | _, 0, acc => pure acc
  | zone, remaining + 1, acc => do
    let zone_start := start_generation + (zone : Int) * zone_width
    let zone_end := zone_start + zone_width
    let roll ← randomUnit
    let acc' ← if roll < 450 then   -- random() < 0.45
        desert_spike_attempts h plats cps zone_start zone_end 8 acc
      else pure acc
    desert_spike_zones h plats cps start_generation zone_width (zone + 1) remaining acc'

/-- Desert danger-zone inner loop (2 spikes, 38×35, step 50). -/
def desert_danger_inner (h : Int) (plats : List Platform)
    (cps : List Checkpoint) (zone_start : Int) :
    Nat → Int → List Spike → List Spike
  | 0, _, acc => acc
  | iter + 1, added, acc =>
    let x := zone_start + added * 50 + 40
    let y := (h - 50) - 35
    if is_near_checkpoint x y cps 150 then
      desert_danger_inner h plats cps zone_start iter added acc
    else if !is_on_surface x y 35 plats (h - 50) then
      desert_danger_inner h plats cps zone_start iter added acc
    else if spike_overlaps x y 38 35 acc then
      desert_danger_inner h plats cps zone_start iter added acc
    else
      desert_danger_inner h plats cps zone_start iter (added + 1)
        (acc ++ [⟨x, y, 38, 35, false⟩])

/-- One desert danger zone. -/
def desert_danger_zone (h : Int) (plats : List Platform)
    (cps : List Checkpoint) (start_generation zone_width : Int)
    (dz : Nat) (acc : List Spike) : List Spike :=
  let zone_start := start_generation + (dz : Int) * zone_width
  let zone_center_x := zone_start + zone_width.ediv 2
  let zone_center_y := (h - 50) - 35
  if is_near_checkpoint zone_center_x zone_center_y cps 200 then acc
  else desert_danger_inner h plats cps zone_start 2 0 acc

/-- Desert platform-top spike attempt loop (5 attempts per platform; checks
flush alignment and the horizontal span against *this* platform). -/
def desert_platform_spike_attempts (p : Platform) :
    Nat → List Spike → GenM (List Spike)
  | 0, acc => pure acc
  | fuel + 1, acc =>
    let available_space := p.width - 60
    if available_space < 40 then pure acc           -- break
    else do
      let offset ← randint 20 available_space
      let spike_x := p.x + offset
      let spike_y := p.y - 32
      if |spike_y + 32 - p.y| > 2 then
        desert_platform_spike_attempts p fuel acc
      else if spike_x < p.x || spike_x + 38 > p.x + p.width then
        desert_platform_spike_attempts p fuel acc
      else if spike_overlaps spike_x spike_y 38 32 acc then
        desert_platform_spike_attempts p fuel acc
      else pure (acc ++ [⟨spike_x, spike_y, 38, 32, true⟩])

/-- Desert: loop over the platforms selected for top spikes. -/
def desert_platform_spikes : List Platform → List Spike → GenM (List Spike)
  | [], acc => pure acc
  | p :: rest, acc => do
    let acc' ← desert_platform_spike_attempts p 5 acc
    desert_platform_spikes rest acc'

/-- Desert danger-zone pass (part 5 of `generate_hazards`). -/
def desert_danger_stage (h : Int) (plats : List Platform)
    (cps : List Checkpoint) (start_generation zone_width : Int)
    (spikes : List Spike) : GenM (List Spike) := do
  let danger_zones ← sampleList (pyRange 2 11) 3   -- min(3, 12 - 3) = 3
  pure (danger_zones.foldl
    (fun acc dz => desert_danger_zone h plats cps start_generation zone_width dz acc)
    spikes)

/-- Desert platform-top spike pass (part 6 of `generate_hazards`). -/
def desert_platform_spikes_stage (h : Int) (plats : List Platform)
    (cps : List Checkpoint) (spikes : List Spike) : GenM (List Spike) := do
  let eligible_platforms := plats.filter fun p =>
    p.y < h - 100 &&
    !is_near_checkpoint (p.x + p.width.ediv 2) p.y cps 200 &&
    p.width ≥ 80
  let n0 ← randint 2 3
  let num_platform_spikes := min n0.toNat eligible_platforms.length
  let selected_platforms ← sampleList eligible_platforms num_platform_spikes
  desert_platform_spikes selected_platforms spikes

/-- `DesertWorldGenerator.generate_hazards`. -/
def desert_generate_hazards (w h : Int) (plats : List Platform)
    (cps : List Checkpoint) : GenM (List Spike) := do
  let start_generation : Int := 400
  let end_generation := w - 250
  let generation_width := end_generation - start_generation
  let zone_width := generation_width.ediv 12
  let spikes ← desert_spike_zones h plats cps start_generation zone_width 0 12 []
  let spikes ← desert_danger_stage h plats cps start_generation zone_width spikes
  desert_platform_spikes_stage h plats cps spikes

/-! ## `IceWorldGenerator` -/

/-- Ice power-up distribution: 50% life, 25% speed, 25% jump. -/
def ice_get_powerup_type : GenM PowerupType := do
  let rand ← randomUnit
  if rand < 500 then pure .life       -- rand < 0.50
  else if rand < 750 then pure .speed -- rand < 0.75
  else pure .jump

/-- Ice colour scheme. -/
def ice_define_colors : WorldColors :=
  { sky := (176, 224, 230), ground := (240, 248, 255),
    platform := (175, 238, 238), hazard := (70, 130, 180) }

/-- Ice spacing rule (270 horizontal band; 30/130 same-height rule). -/
def ice_too_close (x y : Int) (acc : List Platform) : Bool :=
  acc.any fun p =>
    (|x - p.x| < 270 && |y - p.y| < MIN_VERTICAL_SPACING) ||
    (|y - p.y| < 30 && |x - p.x| < 130)

/-- Ice reachability: ground-height test plus forward and backward checks
that skip the ground platform (`prev_platform['y'] != height - 50`). -/
def ice_reachable (h x y pw : Int) (acc : List Platform) : Bool :=
  ((h - 50) - y ≤ MAX_JUMP_HEIGHT) ||
  (acc.any fun p => p.y ≠ h - 50 && p.x < x + 400 &&
    is_platform_reachable (p.x + p.width) p.y x y pw) ||
  (acc.any fun p => p.y ≠ h - 50 && |p.x - x| < 400 &&
    is_platform_reachable p.x p.y x y pw)

/-- Ice segment attempt loop (30 attempts for a single platform; success
appends and stops). -/
def ice_segment_attempts (h : Int) (cps : List Checkpoint)
    (seg_start seg_end seg_width : Int) :
    Nat → List Platform → GenM (List Platform)
  | 0, acc => pure acc
  | fuel + 1, acc =>
    let margin_left := (seg_width * 25).tdiv 100    -- int(segment_width * 0.25)
    let margin_right := (seg_width * 35).tdiv 100   -- int(segment_width * 0.35)
    let available_width := seg_width - margin_left - margin_right
    if available_width < 60 then pure acc           -- break
    else do
      let x ← randint (seg_start + margin_left) (seg_end - margin_right)
      let y ← randint (h - 350) (h - 140)
      let platform_width ← randint 65 95
      if is_near_checkpoint x y cps CHECKPOINT_SAFE_RADIUS then
        ice_segment_attempts h cps seg_start seg_end seg_width fuel acc
      else if overlaps_existing x y platform_width 15 acc then
        ice_segment_attempts h cps seg_start seg_end seg_width fuel acc
      else if ice_too_close x y acc then
        ice_segment_attempts h cps seg_start seg_end seg_width fuel acc
      else if !ice_reachable h x y platform_width acc then
        ice_segment_attempts h cps seg_start seg_end seg_width fuel acc
      else pure (acc ++ [⟨x, y, platform_width, 15⟩])

/-- Ice outer segment loop (`for segment in range(8)`, 85% gate). -/
def ice_segments (h : Int) (cps : List Checkpoint)
    (start_generation seg_width : Int) : Nat → Nat → List Platform → GenM (List Platform)
  | _, 0, acc => pure acc
  | seg, remaining + 1, acc => do
    let seg_start := start_generation + (seg : Int) * seg_width
    let seg_end := seg_start + seg_width
    let roll ← randomUnit
    let acc' ← if roll < 850 then   -- random() < 0.85
        ice_segment_attempts h cps seg_start seg_end seg_width 30 acc
      else pure acc
    ice_segments h cps start_generation seg_width (seg + 1) remaining acc'

/-- `IceWorldGenerator.generate_platforms`. -/
def ice_generate_platforms (w h : Int) (cps : List Checkpoint) :
    GenM (List Platform) := do
  let ground : Platform := ⟨0, h - 50, w, 50⟩
  let platforms := [ground]
  let spawn_x : Int := 100
  let spawn_y : Int := 100
  let first_platform : Platform := ⟨220, h - 200, 85, 15⟩
  let platforms :=
    if is_platform_reachable spawn_x spawn_y first_platform.x first_platform.y
        first_platform.width then platforms ++ [first_platform] else platforms
  let second_platform : Platform := ⟨450, h - 280, 80, 15⟩
  let platforms :=
    if is_platform_reachable first_platform.x first_platform.y
        second_platform.x second_platform.y second_platform.width then
      platforms ++ [second_platform] else platforms
  let start_generation : Int := 700
  let end_generation := w - 400
  let generation_width := end_generation - start_generation
  let seg_width := generation_width.ediv 8
  let platforms ← ice_segments h cps start_generation seg_width 0 8 platforms
  let final_platform : Platform := ⟨w - 380, h - 210, 95, 15⟩
  let platforms :=
    if !is_near_checkpoint final_platform.x final_platform.y cps
        CHECKPOINT_SAFE_RADIUS &&
       final_spacing_ok final_platform.x final_platform.y 270 platforms then
      platforms ++ [final_platform] else platforms
  pure platforms

/-- Ice individual ground-spike retry loop (10 attempts). -/
def ice_spike_attempts (h : Int) (plats : List Platform)
    (cps : List Checkpoint) (zone_start zone_end : Int) :
    Nat → List Spike → GenM (List Spike)
  | 0, acc => pure acc
  | fuel + 1, acc => do
    let x ← randint (zone_start + 25) (zone_end - 25)
    let y := (h - 50) - 35
    if is_near_checkpoint x y cps 150 then
      ice_spike_attempts h plats cps zone_start zone_end fuel acc
    else if !is_on_surface x y 35 plats (h - 50) then
      ice_spike_attempts h plats cps zone_start zone_end fuel acc
    else if spike_overlaps x y 35 35 acc then
      ice_spike_attempts h plats cps zone_start zone_end fuel acc
    else pure (acc ++ [⟨x, y, 35, 35, false⟩])

/-- Ice ground-spike zone loop (16 zones, 65% gate). -/
def ice_spike_zones (h : Int) (plats : List Platform)
    (cps : List Checkpoint) (start_generation zone_width : Int) :
    Nat → Nat → List Spike → GenM (List Spike)
  | _, 0, acc => pure acc
  | zone, remaining + 1, acc => do
    let zone_start := start_generation + (zone : Int) * zone_width
    let zone_end := zone_start + zone_width
    let roll ← randomUnit
    let acc' ← if roll < 650 then   -- random() < 0.65
        ice_spike_attempts h plats cps zone_start zone_end 10 acc
      else pure acc
    ice_spike_zones h plats cps start_generation zone_width (zone + 1) remaining acc'

/-- Ice danger-zone inner loop (2 spikes, 35×35, step 45). -/
def ice_danger_inner (h : Int) (plats : List Platform)
    (cps : List Checkpoint) (zone_start : Int) :
    Nat → Int → List Spike → List Spike
  | 0, _, acc => acc
  | iter + 1, added, acc =>
    let x := zone_start + added * 45 + 30
    let y := (h - 50) - 35
    if is_near_checkpoint x y cps 150 then
      ice_danger_inner h plats cps zone_start iter added acc
    else if !is_on_surface x y 35 plats (h - 50) then
      ice_danger_inner h plats cps zone_start iter added acc
    else if spike_overlaps x y 35 35 acc then
      ice_danger_inner h plats cps zone_start iter added acc
    else
      ice_danger_inner h plats cps zone_start iter (added + 1)
        (acc ++ [⟨x, y, 35, 35, false⟩])

/-- One ice danger zone. -/
def ice_danger_zone (h : Int) (plats : List Platform)
    (cps : List Checkpoint) (start_generation zone_width : Int)
    (dz : Nat) (acc : List Spike) : List Spike :=
  let zone_start := start_generation + (dz : Int) * zone_width
  let zone_center_x := zone_start + zone_width.ediv 2
  let zone_center_y := (h - 50) - 35
  if is_near_checkpoint zone_center_x zone_center_y cps 200 then acc
  else ice_danger_inner h plats cps zone_start 2 0 acc

/-- Ice platform-top spike attempt loop (5 attempts; flush-alignment and
span checks against the selected platform). -/
def ice_platform_spike_attempts (p : Platform) :
    Nat → List Spike → GenM (List Spike)
  | 0, acc => pure acc
  | fuel + 1, acc =>
    let available_space := p.width - 45
    if available_space < 35 then pure acc           -- break
    else do
      let offset ← randint 10 (max 10 available_space)
      let spike_x := p.x + offset
      let spike_y := p.y - 35
      if |spike_y + 35 - p.y| > 2 then
        ice_platform_spike_attempts p fuel acc
      else if spike_x < p.x || spike_x + 35 > p.x + p.width then
        ice_platform_spike_attempts p fuel acc
      else if spike_overlaps spike_x spike_y 35 35 acc then
        ice_platform_spike_attempts p fuel acc
      else pure (acc ++ [⟨spike_x, spike_y, 35, 35, true⟩])

/-- Ice: loop over the platforms selected for top spikes. -/
def ice_platform_spikes : List Platform → List Spike → GenM (List Spike)
  | [], acc => pure acc
  | p :: rest, acc => do
    let acc' ← ice_platform_spike_attempts p 5 acc
    ice_platform_spikes rest acc'

/-- Ice danger-zone pass (part 5 of `generate_hazards`). -/
def ice_danger_stage (h : Int) (plats : List Platform)
    (cps : List Checkpoint) (start_generation zone_width : Int)
    (spikes : List Spike) : GenM (List Spike) := do
  let danger_zones ← sampleList (pyRange 2 15) 5   -- min(5, 16 - 3) = 5
  pure (danger_zones.foldl
    (fun acc dz => ice_danger_zone h plats cps start_generation zone_width dz acc)
    spikes)

/-- Ice platform-top spike pass (part 6 of `generate_hazards`). -/
def ice_platform_spikes_stage (h : Int) (plats : List Platform)
    (cps : List Checkpoint) (spikes : List Spike) : GenM (List Spike) := do
  let eligible_platforms := plats.filter fun p =>
    p.y < h - 100 &&
    !is_near_checkpoint (p.x + p.width.ediv 2) p.y cps 200 &&
    p.width ≥ 65
  let n0 ← randint 5 7
  let num_platform_spikes := min n0.toNat eligible_platforms.length
  let selected_platforms ← sampleList eligible_platforms num_platform_spikes
  ice_platform_spikes selected_platforms spikes

/-- `IceWorldGenerator.generate_hazards`. -/
def ice_generate_hazards (w h : Int) (plats : List Platform)
    (cps : List Checkpoint) : GenM (List Spike) := do
  let start_generation : Int := 350
  let end_generation := w - 200
  let generation_width := end_generation - start_generation
  let zone_width := generation_width.ediv 16
  let spikes ← ice_spike_zones h plats cps start_generation zone_width 0 16 []
  let spikes ← ice_danger_stage h plats cps start_generation zone_width spikes
  ice_platform_spikes_stage h plats cps spikes

/-! ## Template method and the three concrete generators -/

/-- The pluggable pieces a concrete biome generator supplies. -/
structure GenConfig where
  world_name : String
  colors : WorldColors
  gen_platforms : Int → Int → List Checkpoint → GenM (List Platform)
  gen_hazards : Int → Int → List Platform → List Checkpoint → GenM (List Spike)
  get_powerup_type : GenM PowerupType
  add_special_features : Blueprint → Int → Int → Blueprint

/-- `WorldGenerator.generate_world` — the fixed template-method skeleton:
colors/name → checkpoints → platforms → hazards → goal → enemies →
power-ups → special-features hook. -/
def generate_world (cfg : GenConfig) (width height : Int) : GenM Blueprint := do
  let checkpoints := generate_checkpoints width height
  let platforms ← cfg.gen_platforms width height checkpoints
  let spikes ← cfg.gen_hazards width height platforms checkpoints
  let goal := add_goal width height
  let enemies ← add_enemies width height platforms checkpoints (some goal)
  let powerups ← add_powerups cfg.get_powerup_type width height platforms
    checkpoints (some goal) enemies
  pure (cfg.add_special_features
    { name := cfg.world_name, colors := cfg.colors, platforms := platforms,
      spikes := spikes, checkpoints := checkpoints, powerups := powerups,
      enemies := enemies, goal := some goal, music := none,
      slippery := none, friction := none } width height)

/-- The grass biome configuration; its hook only sets the music key. -/
def grassGen : GenConfig :=
  { world_name := "Mundo de Pasto"
    colors := grass_define_colors
    gen_platforms := grass_generate_platforms
    gen_hazards := grass_generate_hazards
    get_powerup_type := grass_get_powerup_type
    add_special_features := fun bp _ _ =>
      { bp with music := some (WORLD_MUSIC_PATH ++ "grass_theme.mp3") } }

/-- The desert biome configuration; its hook only sets the music key. -/
def desertGen : GenConfig :=
  { world_name := "Mundo Desértico"
    colors := desert_define_colors
    gen_platforms := desert_generate_platforms
    gen_hazards := desert_generate_hazards
    get_powerup_type := desert_get_powerup_type
    add_special_features := fun bp _ _ =>
      { bp with music := some (WORLD_MUSIC_PATH ++ "desert_theme.mp3") } }

/-- The ice biome configuration; its hook sets the music key and the two
extra fields `slippery = True`, `friction = 0.3`. -/
def iceGen : GenConfig :=
  { world_name := "Mundo de Hielo"
    colors := ice_define_colors
    gen_platforms := ice_generate_platforms
    gen_hazards := ice_generate_hazards
    get_powerup_type := ice_get_powerup_type
    add_special_features := fun bp _ _ =>
      { bp with music := some (WORLD_MUSIC_PATH ++ "ice_theme.mp3"),
                slippery := some true, friction := some 0.3 } }

/-! ## Definitions used to state the claims -/

/-- Generation raised a Python exception. -/
def genFails {α : Type} : Except String (α × Rng) → Bool
  | .error _ => true
  | .ok _ => false

/-- Proper overlap of two axis-aligned platform rectangles: the open
interiors intersect.  Rectangles that merely touch along an edge (sum of
extents exactly equal on an axis) do *not* properly overlap. -/
def rects_properly_overlap (p q : Platform) : Prop :=
  q.x < p.x + p.width ∧ p.x < q.x + q.width ∧
  q.y < p.y + p.height ∧ p.y < q.y + q.height

instance (p q : Platform) : Decidable (rects_properly_overlap p q) := by
  unfold rects_properly_overlap; infer_instance

/-- No two (position-)distinct platforms of the list properly overlap. -/
def platforms_disjoint (l : List Platform) : Prop :=
  l.Pairwise fun p q => ¬ rects_properly_overlap p q

/-- The claim-C4 predicate: hazard `s` rests on the ground or on a platform
(via the embedded `is_on_surface`, applied to the hazard's own height). -/
def spike_supported (plats : List Platform) (h : Int) (s : Spike) : Prop :=
  is_on_surface s.x s.y s.height plats (h - 50) = true

/-- The four placement constraints `add_powerups` actually enforces for a
single power-up against the fixed entity lists (claim C2, amended). -/
def powerup_clear (cps : List Checkpoint) (goal : Option Goal)
    (enemies : List Enemy) (u : Powerup) : Prop :=
  (∀ c ∈ cps, ¬(|u.x - c.x| < POWERUP_MIN_DISTANCE_CHECKPOINT ∧ |u.y - c.y| < 100)) ∧
  (∀ g, goal = some g → ¬(|u.x - g.x| < POWERUP_MIN_DISTANCE_GOAL ∧ |u.y - g.y| < 150)) ∧
  (∀ e ∈ enemies, POWERUP_MIN_DISTANCE_ENEMY ≤ |u.x - e.x|)

/-- Mutual spacing constraint among the placed power-ups (claim C2,
amended): any two distinct power-ups are ≥ 200 apart horizontally. -/
def powerups_spaced (ps : List Powerup) : Prop :=
  ps.Pairwise fun u v => POWERUP_MIN_DISTANCE_POWERUP ≤ |u.x - v.x|

/-- The constant random stream with value `v`. -/
def constStream (v : Nat) : Nat → Nat := fun _ => v

/-- A random stream given by a list of draws (999 past the end; a draw of
999 fails every probability gate of the source and picks the top of every
`randint` range modulo the span). -/
def listStream (l : List Nat) : Nat → Nat := fun n => l.getD n 999

/-- Draw list of a concrete grass run at width 1400, height 600: all zone
gates fail, danger zone 8 is selected (spikes at x = 1020 and 1070), no
platform-top spikes, no enemies, and the three power-up placements
(600, 200), (1020, 450), (810, 310) succeed immediately. -/
def grassDraws1400 : List Nat :=
  (List.replicate 16 999) ++
  [6, 0, 0, 999, 0, 0, 1, 0, 999, 420, 1, 250, 999, 210, 1, 110, 999]

/-- Draw list of a concrete desert run at width 1400, height 600 (two high
platforms attempted, one placed; same three power-up placements). -/
def desertDraws1400 : List Nat :=
  (List.replicate 7 999) ++ [0, 0, 3, 70, 999, 40] ++ (List.replicate 45 999) ++
  (List.replicate 12 999) ++ [0, 7, 6, 0, 0, 1, 999, 999, 999, 999, 0] ++
  [0, 1, 0, 999, 420, 1, 250, 999, 210, 1, 110, 999]

/-- Draw list of a concrete ice run at width 1400, height 600. -/
def iceDraws1400 : List Nat :=
  (List.replicate 29 999) ++ [999, 999, 999, 0] ++
  [0, 1, 0, 999, 420, 1, 250, 999, 210, 1, 110, 999]

/-- The blueprint produced by the concrete grass run
`generate_world grassGen 1400 600 ⟨0, listStream grassDraws1400⟩`; it also
exhibits the claim-C2 counterexample: it contains the power-up (1020, 450)
at Euclidean distance 68 from the hazard (1020, 518) and the power-up
(810, 310) at Euclidean distance √19700 < 150 from the checkpoint
(800, 450), with no enemies. -/
def grassBp1400 : Blueprint :=
  { name := "Mundo de Pasto", colors := grass_define_colors,
    platforms := [⟨0, 550, 1400, 50⟩, ⟨350, 380, 130, 20⟩, ⟨1180, 460, 120, 20⟩],
    spikes := [⟨1020, 518, 38, 32, false⟩, ⟨1070, 518, 38, 32, false⟩],
    checkpoints := [⟨800, 450⟩, ⟨1600, 450⟩, ⟨2400, 450⟩],
    powerups := [⟨600, 200, 35, 35, .life⟩, ⟨1020, 450, 35, 35, .life⟩,
                 ⟨810, 310, 35, 35, .life⟩],
    enemies := [], goal := some ⟨1280, 300, 60, 250⟩,
    music := some "Assets/WorldMusic/grass_theme.mp3",
    slippery := none, friction := none }

/-- The blueprint produced by the concrete desert run
`generate_world desertGen 1400 600 ⟨0, listStream desertDraws1400⟩`. -/
def desertBp1400 : Blueprint :=
  { name := "Mundo Desértico", colors := desert_define_colors,
    platforms := [⟨0, 550, 1400, 50⟩, ⟨380, 360, 110, 18⟩, ⟨615, 250, 87, 18⟩,
                  ⟨1050, 410, 130, 18⟩],
    spikes := [⟨564, 515, 38, 35, false⟩, ⟨614, 515, 38, 35, false⟩,
               ⟨1060, 515, 38, 35, false⟩, ⟨1110, 515, 38, 35, false⟩,
               ⟨407, 328, 38, 32, true⟩, ⟨1100, 378, 38, 32, true⟩],
    checkpoints := [⟨800, 450⟩, ⟨1600, 450⟩, ⟨2400, 450⟩],
    powerups := [⟨600, 200, 35, 35, .life⟩, ⟨1020, 450, 35, 35, .life⟩,
                 ⟨810, 310, 35, 35, .life⟩],
    enemies := [], goal := some ⟨1280, 300, 60, 250⟩,
    music := some "Assets/WorldMusic/desert_theme.mp3",
    slippery := none, friction := none }

/-- The blueprint produced by the concrete ice run
`generate_world iceGen 1400 600 ⟨0, listStream iceDraws1400⟩`. -/
def iceBp1400 : Blueprint :=
  { name := "Mundo de Hielo", colors := ice_define_colors,
    platforms := [⟨0, 550, 1400, 50⟩, ⟨450, 320, 80, 15⟩],
    spikes := [⟨1069, 515, 35, 35, false⟩, ⟨1114, 515, 35, 35, false⟩,
               ⟨1016, 515, 35, 35, false⟩, ⟨486, 515, 35, 35, false⟩,
               ⟨531, 515, 35, 35, false⟩, ⟨471, 285, 35, 35, true⟩],
    checkpoints := [⟨800, 450⟩, ⟨1600, 450⟩, ⟨2400, 450⟩],
    powerups := [⟨600, 200, 35, 35, .jump⟩, ⟨1020, 450, 35, 35, .jump⟩,
                 ⟨810, 310, 35, 35, .jump⟩],
    enemies := [], goal := some ⟨1280, 300, 60, 250⟩,
    music := some "Assets/WorldMusic/ice_theme.mp3",
    slippery := some true, friction := some 0.3 }

/-- Common shape bounds of the non-ground platforms a biome generator can
emit (claim C3): width within `[wmin, wmax]`, the biome's fixed plank
height `hgt`, and a bottom edge `y + height` at or above `ymax`, which is
itself well above the ground top `h - 50`. -/
def plat_shape (wmin wmax hgt ymax : Int) (p : Platform) : Prop :=
  wmin ≤ p.width ∧ p.width ≤ wmax ∧ p.height = hgt ∧ p.y + p.height ≤ ymax

/-- Invariant carried through a biome's platform generation (claim C3):
the list is the full-width ground platform followed by shaped platforms,
and no two of its members properly overlap. -/
def plats_inv (w h wmin wmax hgt ymax : Int) (l : List Platform) : Prop :=
  ∃ rest, l = ⟨0, h - 50, w, 50⟩ :: rest ∧
    (∀ p ∈ rest, plat_shape wmin wmax hgt ymax p) ∧
    platforms_disjoint l

/-! # Theorems -/

set_option maxRecDepth 8000

theorem genm_bind_apply {α β : Type} (m : GenM α) (f : α → GenM β) (s : Rng) :
    (m >>= f) s = match m s with
      | .error e => .error e
      | .ok (a, s') => f a s' := rfl

theorem genm_pure_apply {α : Type} (a : α) (s : Rng) :
    (pure a : GenM α) s = .ok (a, s) := rfl

theorem genFails_bind_of_all {α β : Type} {m : GenM α} {f : α → GenM β}
    (hf : ∀ a s', genFails (f a s') = true) (s : Rng) :
    genFails ((m >>= f) s) = true := by
  rw [genm_bind_apply]
  cases h : m s with
  | error e => rfl
  | ok p => obtain ⟨a, s'⟩ := p; exact hf a s'

theorem genFails_bind_of_head {α β : Type} {m : GenM α} {f : α → GenM β}
    {s : Rng} (hm : genFails (m s) = true) :
    genFails ((m >>= f) s) = true := by
  rw [genm_bind_apply]
  cases h : m s with
  | error e => rfl
  | ok p => rw [h] at hm; exact absurd hm (by simp [genFails])

theorem randint_ok_bounds {a b v : Int} {s s' : Rng}
    (h : randint a b s = .ok (v, s')) : a ≤ v ∧ v ≤ b := by
  unfold randint at h
  split at h
  · exact absurd h (by simp [genFail])
  · rename_i hba
    rw [genm_bind_apply] at h
    simp only [nextNat, genm_pure_apply, Except.ok.injEq, Prod.mk.injEq] at h
    obtain ⟨hv, -⟩ := h
    have hpos : (0 : Int) < b - a + 1 := by omega
    have h0 : (0 : Int) ≤ (s.stream s.idx : Int) % (b - a + 1) :=
      Int.emod_nonneg _ (by omega)
    have h1 : ((s.stream s.idx : Int)) % (b - a + 1) < b - a + 1 :=
      Int.emod_lt_of_pos _ hpos
    omega

theorem sampleAux_ok_subset {α : Type} :
    ∀ (k : Nat) (l res : List α) (s s' : Rng),
      sampleAux l k s = .ok (res, s') → res ⊆ l := by
  intro k
  induction k with
  | zero =>
    intro l res s s' h
    simp only [sampleAux, genm_pure_apply, Except.ok.injEq, Prod.mk.injEq] at h
    rw [← h.1]
    exact List.nil_subset l
  | succ k ih =>
    intro l res s s' h
    rw [sampleAux, genm_bind_apply] at h
    simp only [nextNat] at h
    cases l with
    | nil => exact absurd h (by simp [genFail])
    | cons a t =>
      dsimp only at h
      rw [genm_bind_apply] at h
      cases hrest : sampleAux ((a :: t).eraseIdx (s.stream s.idx % (a :: t).length)) k
          ⟨s.idx + 1, s.stream⟩ with
      | error e => rw [hrest] at h; exact absurd h (by simp)
      | ok p =>
        obtain ⟨rest, s2⟩ := p
        rw [hrest] at h
        simp only [genm_pure_apply, Except.ok.injEq, Prod.mk.injEq] at h
        rw [← h.1]
        intro z hz
        rcases List.mem_cons.mp hz with hz | hz
        · rw [hz]; exact List.get_mem _ _ _
        · exact (List.eraseIdx_sublist (a :: t)
            (s.stream s.idx % (a :: t).length)).subset (ih _ _ _ _ hrest hz)

theorem sampleList_ok_subset {α : Type} {l res : List α} {k : Nat} {s s' : Rng}
    (h : sampleList l k s = .ok (res, s')) : res ⊆ l := by
  unfold sampleList at h
  split at h
  · exact absurd h (by simp [genFail])
  · exact sampleAux_ok_subset k l res s s' h

/-! ## Concrete-run stage equations (each piece small enough for kernel
reduction; the one hot loop is handled by induction) -/

theorem randint_apply (a b : Int) (hab : a ≤ b) (s : Rng) :
    randint a b s =
      .ok (a + (s.stream s.idx : Int) % (b - a + 1), ⟨s.idx + 1, s.stream⟩) := by
  unfold randint
  rw [if_neg (by omega)]
  rfl

theorem desertDraws1400_mid (j : Nat) (h13 : 13 ≤ j) (h58 : j < 58) :
    listStream desertDraws1400 j = 999 := by
  revert h13
  revert j
  decide

theorem desert_high_z5_burn :
    ∀ (fuel : Nat) (acc : List Platform) (idx : Nat), 13 ≤ idx →
      idx + 3 * fuel ≤ 58 →
      desert_high_attempts 600 (generate_checkpoints 1400 600) 600 57 5 fuel acc
        ⟨idx, listStream desertDraws1400⟩ =
      .ok (acc, ⟨idx + 3 * fuel, listStream desertDraws1400⟩) := by
  intro fuel
  induction fuel with
  | zero =>
    intro acc idx h13 h58
    simp [desert_high_attempts, genm_pure_apply]
  | succ fuel ih =>
    intro acc idx h13 h58
    rw [desert_high_attempts]
    rw [genm_bind_apply, randint_apply 280 350 (by norm_num)]
    dsimp only
    rw [desertDraws1400_mid idx h13 (by omega)]
    norm_num
    rw [genm_bind_apply, randint_apply 80 110 (by norm_num)]
    dsimp only
    rw [desertDraws1400_mid (idx + 1) (by omega) (by omega)]
    norm_num
    rw [genm_bind_apply, randint_apply 30 70 (by norm_num)]
    dsimp only
    rw [desertDraws1400_mid (idx + 1 + 1) (by omega) (by omega)]
    norm_num
    rw [if_pos (by decide)]
    rw [ih acc (idx + 1 + 1 + 1) (by omega) (by omega)]
    have h3 : idx + 1 + 1 + 1 + 3 * fuel = idx + 3 * (fuel + 1) := by ring
    rw [h3]

set_option maxHeartbeats 1600000 in
theorem desert1400_segments_eq :
    desert_segments 600 (generate_checkpoints 1400 600) 600 57 0 7
      [⟨0, 550, 1400, 50⟩, ⟨380, 360, 110, 18⟩]
      ⟨0, listStream desertDraws1400⟩ =
    .ok ([⟨0, 550, 1400, 50⟩, ⟨380, 360, 110, 18⟩],
      ⟨7, listStream desertDraws1400⟩) := by rfl

set_option maxHeartbeats 1600000 in
theorem desert1400_high1_eq :
    desert_high_attempts 600 (generate_checkpoints 1400 600) 600 57 1 15
      [⟨0, 550, 1400, 50⟩, ⟨380, 360, 110, 18⟩]
      ⟨10, listStream desertDraws1400⟩ =
    .ok ([⟨0, 550, 1400, 50⟩, ⟨380, 360, 110, 18⟩, ⟨615, 250, 87, 18⟩],
      ⟨13, listStream desertDraws1400⟩) := by rfl

set_option maxHeartbeats 1600000 in
theorem desert1400_highs_eq :
    desert_highs 600 (generate_checkpoints 1400 600) 600 57
      [⟨0, 550, 1400, 50⟩, ⟨380, 360, 110, 18⟩]
      ⟨7, listStream desertDraws1400⟩ =
    .ok (desertBp1400.platforms.take 3, ⟨58, listStream desertDraws1400⟩) := by
  have h0 : desert_highs 600 (generate_checkpoints 1400 600) 600 57
      [⟨0, 550, 1400, 50⟩, ⟨380, 360, 110, 18⟩]
      ⟨7, listStream desertDraws1400⟩ =
      desert_high_zones 600 (generate_checkpoints 1400 600) 600 57 [1, 5]
        [⟨0, 550, 1400, 50⟩, ⟨380, 360, 110, 18⟩]
        ⟨10, listStream desertDraws1400⟩ := by rfl
  rw [h0]
  rw [desert_high_zones, genm_bind_apply, desert1400_high1_eq]
  dsimp only
  rw [desert_high_zones, genm_bind_apply,
    desert_high_z5_burn 15 _ 13 (by omega) (by omega)]
  dsimp only
  rw [desert_high_zones]
  rfl

set_option maxHeartbeats 1600000 in
theorem desert1400_platforms_eq :
    desert_generate_platforms 1400 600 (generate_checkpoints 1400 600)
      ⟨0, listStream desertDraws1400⟩ =
    .ok (desertBp1400.platforms, ⟨58, listStream desertDraws1400⟩) := by
  have h0 : desert_generate_platforms 1400 600 (generate_checkpoints 1400 600) =
      ((desert_segments 600 (generate_checkpoints 1400 600) 600 57 0 7
          [⟨0, 550, 1400, 50⟩, ⟨380, 360, 110, 18⟩] >>= fun platforms =>
        desert_highs 600 (generate_checkpoints 1400 600) 600 57 platforms
          >>= fun platforms2 =>
        pure (if !is_near_checkpoint (1400 - 350) (600 - 190)
                (generate_checkpoints 1400 600) CHECKPOINT_SAFE_RADIUS &&
              final_spacing_ok (1400 - 350) (600 - 190) 220 platforms2 then
            platforms2 ++ [⟨1400 - 350, 600 - 190, 130, 18⟩] else platforms2))
        : GenM (List Platform)) := by rfl
  rw [h0, genm_bind_apply, desert1400_segments_eq]
  dsimp only
  rw [genm_bind_apply, desert1400_highs_eq]
  dsimp only
  rw [genm_pure_apply]
  rfl

set_option maxHeartbeats 1600000 in
theorem desert1400_zones_eq :
    desert_spike_zones 600 desertBp1400.platforms
      (generate_checkpoints 1400 600) 400 62 0 12 []
      ⟨58, listStream desertDraws1400⟩ =
    .ok ([], ⟨70, listStream desertDraws1400⟩) := by rfl

set_option maxHeartbeats 1600000 in
theorem desert1400_danger_eq :
    desert_danger_stage 600 desertBp1400.platforms
      (generate_checkpoints 1400 600) 400 62 []
      ⟨70, listStream desertDraws1400⟩ =
    .ok (desertBp1400.spikes.take 4, ⟨73, listStream desertDraws1400⟩) := by rfl

set_option maxHeartbeats 1600000 in
theorem desert1400_platspikes_eq :
    desert_platform_spikes_stage 600 desertBp1400.platforms
      (generate_checkpoints 1400 600) (desertBp1400.spikes.take 4)
      ⟨73, listStream desertDraws1400⟩ =
    .ok (desertBp1400.spikes, ⟨78, listStream desertDraws1400⟩) := by rfl

set_option maxHeartbeats 1600000 in
theorem desert1400_hazards_eq :
    desert_generate_hazards 1400 600 desertBp1400.platforms
      (generate_checkpoints 1400 600) ⟨58, listStream desertDraws1400⟩ =
    .ok (desertBp1400.spikes, ⟨78, listStream desertDraws1400⟩) := by
  have h0 : desert_generate_hazards 1400 600 desertBp1400.platforms
      (generate_checkpoints 1400 600) =
      ((desert_spike_zones 600 desertBp1400.platforms
          (generate_checkpoints 1400 600) 400 62 0 12 [] >>= fun spikes =>
        desert_danger_stage 600 desertBp1400.platforms
          (generate_checkpoints 1400 600) 400 62 spikes >>= fun spikes2 =>
        desert_platform_spikes_stage 600 desertBp1400.platforms
          (generate_checkpoints 1400 600) spikes2) : GenM (List Spike)) := by rfl
  rw [h0, genm_bind_apply, desert1400_zones_eq]
  dsimp only
  rw [genm_bind_apply, desert1400_danger_eq]
  dsimp only
  exact desert1400_platspikes_eq

set_option maxHeartbeats 1600000 in
theorem ice1400_zones_eq :
    ice_spike_zones 600 iceBp1400.platforms (generate_checkpoints 1400 600)
      350 53 0 16 [] ⟨8, listStream iceDraws1400⟩ =
    .ok ([], ⟨24, listStream iceDraws1400⟩) := by rfl

set_option maxHeartbeats 1600000 in
theorem ice1400_danger_eq :
    ice_danger_stage 600 iceBp1400.platforms (generate_checkpoints 1400 600)
      350 53 [] ⟨24, listStream iceDraws1400⟩ =
    .ok (iceBp1400.spikes.take 5, ⟨29, listStream iceDraws1400⟩) := by rfl

set_option maxHeartbeats 1600000 in
theorem ice1400_platspikes_eq :
    ice_platform_spikes_stage 600 iceBp1400.platforms
      (generate_checkpoints 1400 600) (iceBp1400.spikes.take 5)
      ⟨29, listStream iceDraws1400⟩ =
    .ok (iceBp1400.spikes, ⟨32, listStream iceDraws1400⟩) := by rfl

set_option maxHeartbeats 1600000 in
theorem ice1400_hazards_eq :
    ice_generate_hazards 1400 600 iceBp1400.platforms
      (generate_checkpoints 1400 600) ⟨8, listStream iceDraws1400⟩ =
    .ok (iceBp1400.spikes, ⟨32, listStream iceDraws1400⟩) := by
  have h0 : ice_generate_hazards 1400 600 iceBp1400.platforms
      (generate_checkpoints 1400 600) =
      ((ice_spike_zones 600 iceBp1400.platforms
          (generate_checkpoints 1400 600) 350 53 0 16 [] >>= fun spikes =>
        ice_danger_stage 600 iceBp1400.platforms
          (generate_checkpoints 1400 600) 350 53 spikes >>= fun spikes2 =>
        ice_platform_spikes_stage 600 iceBp1400.platforms
          (generate_checkpoints 1400 600) spikes2) : GenM (List Spike)) := by rfl
  rw [h0, genm_bind_apply, ice1400_zones_eq]
  dsimp only
  rw [genm_bind_apply, ice1400_danger_eq]
  dsimp only
  exact ice1400_platspikes_eq

set_option maxHeartbeats 1600000 in
theorem grass1400_platforms_eq :
    grass_generate_platforms 1400 600 (generate_checkpoints 1400 600)
      ⟨0, listStream grassDraws1400⟩ =
    .ok (grassBp1400.platforms, ⟨6, listStream grassDraws1400⟩) := by rfl

set_option maxHeartbeats 1600000 in
theorem grass1400_hazards_eq :
    grass_generate_hazards 1400 600 grassBp1400.platforms
      (generate_checkpoints 1400 600) ⟨6, listStream grassDraws1400⟩ =
    .ok (grassBp1400.spikes, ⟨19, listStream grassDraws1400⟩) := by rfl

set_option maxHeartbeats 1600000 in
theorem grass1400_enemies_eq :
    add_enemies 1400 600 grassBp1400.platforms (generate_checkpoints 1400 600)
      (some (add_goal 1400 600)) ⟨19, listStream grassDraws1400⟩ =
    .ok ([], ⟨20, listStream grassDraws1400⟩) := by rfl

set_option maxHeartbeats 1600000 in
theorem grass1400_powerups_eq :
    add_powerups grass_get_powerup_type 1400 600 grassBp1400.platforms
      (generate_checkpoints 1400 600) (some (add_goal 1400 600)) []
      ⟨20, listStream grassDraws1400⟩ =
    .ok (grassBp1400.powerups, ⟨33, listStream grassDraws1400⟩) := by rfl

set_option maxHeartbeats 1600000 in
theorem desert1400_enemies_eq :
    add_enemies 1400 600 desertBp1400.platforms (generate_checkpoints 1400 600)
      (some (add_goal 1400 600)) ⟨78, listStream desertDraws1400⟩ =
    .ok ([], ⟨80, listStream desertDraws1400⟩) := by rfl

set_option maxHeartbeats 1600000 in
theorem desert1400_powerups_eq :
    add_powerups desert_get_powerup_type 1400 600 desertBp1400.platforms
      (generate_checkpoints 1400 600) (some (add_goal 1400 600)) []
      ⟨80, listStream desertDraws1400⟩ =
    .ok (desertBp1400.powerups, ⟨93, listStream desertDraws1400⟩) := by rfl

set_option maxHeartbeats 1600000 in
theorem ice1400_platforms_eq :
    ice_generate_platforms 1400 600 (generate_checkpoints 1400 600)
      ⟨0, listStream iceDraws1400⟩ =
    .ok (iceBp1400.platforms, ⟨8, listStream iceDraws1400⟩) := by rfl

set_option maxHeartbeats 1600000 in
theorem ice1400_enemies_eq :
    add_enemies 1400 600 iceBp1400.platforms (generate_checkpoints 1400 600)
      (some (add_goal 1400 600)) ⟨32, listStream iceDraws1400⟩ =
    .ok ([], ⟨32, listStream iceDraws1400⟩) := by rfl

set_option maxHeartbeats 1600000 in
theorem ice1400_powerups_eq :
    add_powerups ice_get_powerup_type 1400 600 iceBp1400.platforms
      (generate_checkpoints 1400 600) (some (add_goal 1400 600)) []
      ⟨32, listStream iceDraws1400⟩ =
    .ok (iceBp1400.powerups, ⟨45, listStream iceDraws1400⟩) := by rfl

set_option maxHeartbeats 1600000 in
theorem grassRun1400_eq :
    generate_world grassGen 1400 600 ⟨0, listStream grassDraws1400⟩ =
    .ok (grassBp1400, ⟨33, listStream grassDraws1400⟩) := by
  unfold generate_world
  rw [genm_bind_apply,
    show grassGen.gen_platforms = grass_generate_platforms from rfl,
    grass1400_platforms_eq]
  dsimp only
  rw [genm_bind_apply,
    show grassGen.gen_hazards = grass_generate_hazards from rfl,
    grass1400_hazards_eq]
  dsimp only
  rw [genm_bind_apply, grass1400_enemies_eq]
  dsimp only
  rw [genm_bind_apply,
    show grassGen.get_powerup_type = grass_get_powerup_type from rfl,
    grass1400_powerups_eq]
  dsimp only
  rw [genm_pure_apply]
  rfl

set_option maxHeartbeats 1600000 in
theorem desertRun1400_eq :
    generate_world desertGen 1400 600 ⟨0, listStream desertDraws1400⟩ =
    .ok (desertBp1400, ⟨93, listStream desertDraws1400⟩) := by
  unfold generate_world
  rw [genm_bind_apply,
    show desertGen.gen_platforms = desert_generate_platforms from rfl,
    desert1400_platforms_eq]
  dsimp only
  rw [genm_bind_apply,
    show desertGen.gen_hazards = desert_generate_hazards from rfl,
    desert1400_hazards_eq]
  dsimp only
  rw [genm_bind_apply, desert1400_enemies_eq]
  dsimp only
  rw [genm_bind_apply,
    show desertGen.get_powerup_type = desert_get_powerup_type from rfl,
    desert1400_powerups_eq]
  dsimp only
  rw [genm_pure_apply]
  rfl

set_option maxHeartbeats 1600000 in
theorem iceRun1400_eq :
    generate_world iceGen 1400 600 ⟨0, listStream iceDraws1400⟩ =
    .ok (iceBp1400, ⟨45, listStream iceDraws1400⟩) := by
  unfold generate_world
  rw [genm_bind_apply,
    show iceGen.gen_platforms = ice_generate_platforms from rfl,
    ice1400_platforms_eq]
  dsimp only
  rw [genm_bind_apply,
    show iceGen.gen_hazards = ice_generate_hazards from rfl,
    ice1400_hazards_eq]
  dsimp only
  rw [genm_bind_apply, ice1400_enemies_eq]
  dsimp only
  rw [genm_bind_apply,
    show iceGen.get_powerup_type = ice_get_powerup_type from rfl,
    ice1400_powerups_eq]
  dsimp only
  rw [genm_pure_apply]
  rfl

/-- C5 counterexample: the claim says rectangles whose extents exactly touch
(`x1 + w1 == x2`) are reported as non-overlapping, but on the touching pair
((0,0,10,10), (10,0,10,10)) the source's strict `<` comparisons make
`rectangles_overlap` return `true`, not `false`. -/
theorem C5_counterexample :
    rectangles_overlap 0 0 10 10 10 0 10 10 = true := by decide

/-- C5 (amended): `rectangles_overlap` is the axis-aligned intersection test
in which touching edges count as OVERLAPPING: it returns `true` exactly when
the two closed ranges meet on both axes (so a pair with `x1 + w1 = x2` and
meeting y-ranges yields `true`), and `false` only when some axis has a
strictly positive gap. -/
theorem C5_amended_rectangles_overlap_characterization
    (x1 y1 w1 h1 x2 y2 w2 h2 : Int) :
    rectangles_overlap x1 y1 w1 h1 x2 y2 w2 h2 = true ↔
      (x2 ≤ x1 + w1 ∧ x1 ≤ x2 + w2 ∧ y2 ≤ y1 + h1 ∧ y1 ≤ y2 + h2) := by
  simp only [rectangles_overlap, Bool.not_eq_true', Bool.or_eq_false_iff,
    decide_eq_false_iff_not, not_lt]
  tauto

/-- C6 (code bug): the claim (and the spec, and the source's own comments)
say climbing is bounded by `MAX_JUMP_HEIGHT = 130` while falling is
unbounded.  In the y-grows-downward coordinate system the source uses
everywhere, `is_platform_reachable` tests the wrong sign of
`from_y - to_y`: a 200-pixel climb (from y=500 up to y=300) is accepted and
a 200-pixel fall (from y=300 down to y=500) is rejected — exactly the
opposite of the claim. -/
theorem C6_code_bug_reachability_inverted :
    is_platform_reachable 0 500 0 300 100 = true ∧
    is_platform_reachable 0 300 0 500 100 = false := by decide

/-- C9: `is_platform_reachable` never inspects its `to_width` argument; any
two widths give the same verdict at every other input. -/
theorem C9_reachability_ignores_width
    (from_x from_y to_x to_y w1 w2 : Int) :
    is_platform_reachable from_x from_y to_x to_y w1 =
    is_platform_reachable from_x from_y to_x to_y w2 := rfl

theorem add_powerups_400_fails (gp : GenM PowerupType) (hh : Int)
    (plats : List Platform) (cps : List Checkpoint) (goal : Option Goal)
    (enemies : List Enemy) (s : Rng) :
    genFails (add_powerups gp 400 hh plats cps goal enemies s) = true := by
  unfold add_powerups
  rw [genm_bind_apply]
  have h24 : randint 2 4 s =
      .ok (2 + (s.stream s.idx : Int) % 3, ⟨s.idx + 1, s.stream⟩) := by
    simp [randint, genm_bind_apply, nextNat, genm_pure_apply]
  rw [h24]
  have hdiv : (400 : Int).ediv 1000 = 0 := by decide
  dsimp only
  rw [hdiv]
  set n := (s.stream s.idx : Int) % 3 with hn
  have hn0 : 0 ≤ n := Int.emod_nonneg _ (by norm_num)
  have hf : ∃ f, ((0 + (2 + n)) * 15).toNat = f + 1 :=
    ⟨((0 + (2 + n)) * 15).toNat - 1, by omega⟩
  obtain ⟨f, hf⟩ := hf
  rw [hf]
  rw [add_powerups_loop]
  rw [if_pos (by simp; omega)]
  apply genFails_bind_of_head
  rfl

theorem generate_world_400_fails (cfg : GenConfig) (hh : Int) (s : Rng) :
    genFails (generate_world cfg 400 hh s) = true := by
  unfold generate_world
  apply genFails_bind_of_all; intro plats s1
  apply genFails_bind_of_all; intro spikes s2
  apply genFails_bind_of_all; intro enemies s3
  apply genFails_bind_of_head
  exact add_powerups_400_fails _ _ _ _ _ _ _

set_option maxHeartbeats 1000000 in
/-- C1 counterexample: at width 400 (and height 600, on a concrete random
stream) `generate_world` of the grass biome does not return a blueprint at
all — it raises a Python `ValueError`, contradicting the claim that the
degenerate world yields a valid blueprint without raising. -/
theorem C1_counterexample :
    genFails (generate_world grassGen 400 600 ⟨0, constStream 999⟩) = true := rfl

/-- C1 (amended): for width 400 generation still terminates, but for every
height and every random stream all three biome generators raise a
`ValueError` instead of returning a blueprint: the power-up stage draws
`random.randint(POWERUP_SAFE_ZONE, width - 200) = randint(600, 200)` from
an empty range (and a hazard stage may raise the same way earlier), so no
blueprint with ground platform, checkpoints and goal is ever produced. -/
theorem C1_amended_degenerate_width_raises (hh : Int) (s : Rng) :
    genFails (generate_world grassGen 400 hh s) = true ∧
    genFails (generate_world desertGen 400 hh s) = true ∧
    genFails (generate_world iceGen 400 hh s) = true :=
  ⟨generate_world_400_fails grassGen hh s,
   generate_world_400_fails desertGen hh s,
   generate_world_400_fails iceGen hh s⟩

theorem generate_world_ok_decomp {cfg : GenConfig} {w h : Int} {s : Rng}
    {bp : Blueprint} {s' : Rng}
    (hok : generate_world cfg w h s = .ok (bp, s')) :
    ∃ plats s1 spikes s2 enemies s3 pows s4,
      cfg.gen_platforms w h (generate_checkpoints w h) s = .ok (plats, s1) ∧
      cfg.gen_hazards w h plats (generate_checkpoints w h) s1 = .ok (spikes, s2) ∧
      add_enemies w h plats (generate_checkpoints w h) (some (add_goal w h)) s2
        = .ok (enemies, s3) ∧
      add_powerups cfg.get_powerup_type w h plats (generate_checkpoints w h)
        (some (add_goal w h)) enemies s3 = .ok (pows, s4) ∧
      bp = cfg.add_special_features
        { name := cfg.world_name, colors := cfg.colors, platforms := plats,
          spikes := spikes, checkpoints := generate_checkpoints w h,
          powerups := pows, enemies := enemies, goal := some (add_goal w h),
          music := none, slippery := none, friction := none } w h := by
  unfold generate_world at hok
  rw [genm_bind_apply] at hok
  cases hp : cfg.gen_platforms w h (generate_checkpoints w h) s with
  | error e => rw [hp] at hok; exact absurd hok (by simp)
  | ok p =>
    obtain ⟨plats, s1⟩ := p
    rw [hp] at hok
    dsimp only at hok
    rw [genm_bind_apply] at hok
    cases hs : cfg.gen_hazards w h plats (generate_checkpoints w h) s1 with
    | error e => rw [hs] at hok; exact absurd hok (by simp)
    | ok q =>
      obtain ⟨spikes, s2⟩ := q
      rw [hs] at hok
      dsimp only at hok
      rw [genm_bind_apply] at hok
      cases he : add_enemies w h plats (generate_checkpoints w h)
          (some (add_goal w h)) s2 with
      | error e => rw [he] at hok; exact absurd hok (by simp)
      | ok r =>
        obtain ⟨enemies, s3⟩ := r
        rw [he] at hok
        dsimp only at hok
        rw [genm_bind_apply] at hok
        cases hw : add_powerups cfg.get_powerup_type w h plats
            (generate_checkpoints w h) (some (add_goal w h)) enemies s3 with
        | error e => rw [hw] at hok; exact absurd hok (by simp)
        | ok t =>
          obtain ⟨pows, s4⟩ := t
          rw [hw] at hok
          dsimp only at hok
          rw [genm_pure_apply] at hok
          obtain ⟨hbp, -⟩ := Prod.mk.injEq .. ▸ (Except.ok.injEq .. ▸ hok)
          exact ⟨plats, s1, spikes, s2, enemies, s3, pows, s4,
            rfl, hs, he, hw, hbp.symm⟩

theorem grass_ok_shape {w h : Int} {s s' : Rng} {bp : Blueprint}
    (hok : generate_world grassGen w h s = .ok (bp, s')) :
    ∃ plats s1 spikes s2 enemies s3 pows s4,
      grass_generate_platforms w h (generate_checkpoints w h) s = .ok (plats, s1) ∧
      grass_generate_hazards w h plats (generate_checkpoints w h) s1 = .ok (spikes, s2) ∧
      add_enemies w h plats (generate_checkpoints w h) (some (add_goal w h)) s2
        = .ok (enemies, s3) ∧
      add_powerups grass_get_powerup_type w h plats (generate_checkpoints w h)
        (some (add_goal w h)) enemies s3 = .ok (pows, s4) ∧
      bp = { name := "Mundo de Pasto", colors := grass_define_colors,
             platforms := plats, spikes := spikes,
             checkpoints := generate_checkpoints w h, powerups := pows,
             enemies := enemies, goal := some (add_goal w h),
             music := some (WORLD_MUSIC_PATH ++ "grass_theme.mp3"),
             slippery := none, friction := none } := by
  obtain ⟨plats, s1, spikes, s2, enemies, s3, pows, s4, h1, h2, h3, h4, h5⟩ :=
    generate_world_ok_decomp hok
  exact ⟨plats, s1, spikes, s2, enemies, s3, pows, s4, h1, h2, h3, h4,
    by rw [h5]; rfl⟩

theorem desert_ok_shape {w h : Int} {s s' : Rng} {bp : Blueprint}
    (hok : generate_world desertGen w h s = .ok (bp, s')) :
    ∃ plats s1 spikes s2 enemies s3 pows s4,
      desert_generate_platforms w h (generate_checkpoints w h) s = .ok (plats, s1) ∧
      desert_generate_hazards w h plats (generate_checkpoints w h) s1 = .ok (spikes, s2) ∧
      add_enemies w h plats (generate_checkpoints w h) (some (add_goal w h)) s2
        = .ok (enemies, s3) ∧
      add_powerups desert_get_powerup_type w h plats (generate_checkpoints w h)
        (some (add_goal w h)) enemies s3 = .ok (pows, s4) ∧
      bp = { name := "Mundo Desértico", colors := desert_define_colors,
             platforms := plats, spikes := spikes,
             checkpoints := generate_checkpoints w h, powerups := pows,
             enemies := enemies, goal := some (add_goal w h),
             music := some (WORLD_MUSIC_PATH ++ "desert_theme.mp3"),
             slippery := none, friction := none } := by
  obtain ⟨plats, s1, spikes, s2, enemies, s3, pows, s4, h1, h2, h3, h4, h5⟩ :=
    generate_world_ok_decomp hok
  exact ⟨plats, s1, spikes, s2, enemies, s3, pows, s4, h1, h2, h3, h4,
    by rw [h5]; rfl⟩

theorem ice_ok_shape {w h : Int} {s s' : Rng} {bp : Blueprint}
    (hok : generate_world iceGen w h s = .ok (bp, s')) :
    ∃ plats s1 spikes s2 enemies s3 pows s4,
      ice_generate_platforms w h (generate_checkpoints w h) s = .ok (plats, s1) ∧
      ice_generate_hazards w h plats (generate_checkpoints w h) s1 = .ok (spikes, s2) ∧
      add_enemies w h plats (generate_checkpoints w h) (some (add_goal w h)) s2
        = .ok (enemies, s3) ∧
      add_powerups ice_get_powerup_type w h plats (generate_checkpoints w h)
        (some (add_goal w h)) enemies s3 = .ok (pows, s4) ∧
      bp = { name := "Mundo de Hielo", colors := ice_define_colors,
             platforms := plats, spikes := spikes,
             checkpoints := generate_checkpoints w h, powerups := pows,
             enemies := enemies, goal := some (add_goal w h),
             music := some (WORLD_MUSIC_PATH ++ "ice_theme.mp3"),
             slippery := some true, friction := some 0.3 } := by
  obtain ⟨plats, s1, spikes, s2, enemies, s3, pows, s4, h1, h2, h3, h4, h5⟩ :=
    generate_world_ok_decomp hok
  exact ⟨plats, s1, spikes, s2, enemies, s3, pows, s4, h1, h2, h3, h4,
    by rw [h5]; rfl⟩

/-- C7: `generate_checkpoints` is deterministic and, for every width and
height, produces exactly `NUMBER_OF_CHECKPOINTS_PER_LEVEL = 3` checkpoints
at `x = i * SPACE_BETWEEN_CHECKPOINTS = i * 800` for `i = 1..3` in
generation order, all at `y = height - 150`; every blueprint any of the
three biome generators returns carries exactly this checkpoint list. -/
theorem C7_checkpoints_deterministic (w h : Int) :
    (generate_checkpoints w h =
      [⟨800, h - 150⟩, ⟨1600, h - 150⟩, ⟨2400, h - 150⟩] ∧
     (generate_checkpoints w h).length = NUMBER_OF_CHECKPOINTS_PER_LEVEL) ∧
    (∀ s bp s', generate_world grassGen w h s = .ok (bp, s') →
      bp.checkpoints = generate_checkpoints w h) ∧
    (∀ s bp s', generate_world desertGen w h s = .ok (bp, s') →
      bp.checkpoints = generate_checkpoints w h) ∧
    (∀ s bp s', generate_world iceGen w h s = .ok (bp, s') →
      bp.checkpoints = generate_checkpoints w h) := by
  refine ⟨⟨?_, ?_⟩, ?_, ?_, ?_⟩
  · simp only [generate_checkpoints, NUMBER_OF_CHECKPOINTS_PER_LEVEL,
      SPACE_BETWEEN_CHECKPOINTS, List.range_succ, List.range_zero,
      List.map_append, List.map_cons, List.map_nil, List.nil_append,
      List.cons_append]
    norm_num
  · rfl
  · intro s bp s' hok
    obtain ⟨_, _, _, _, _, _, _, _, -, -, -, -, h5⟩ := grass_ok_shape hok
    rw [h5]
  · intro s bp s' hok
    obtain ⟨_, _, _, _, _, _, _, _, -, -, -, -, h5⟩ := desert_ok_shape hok
    rw [h5]
  · intro s bp s' hok
    obtain ⟨_, _, _, _, _, _, _, _, -, -, -, -, h5⟩ := ice_ok_shape hok
    rw [h5]

/-- C7 witness: the checkpoint formula and count at width 1400, height 600,
and the checkpoint lists of three concrete successful runs. -/
theorem C7_witness :
    ((generate_checkpoints 1400 600 =
       [⟨800, 450⟩, ⟨1600, 450⟩, ⟨2400, 450⟩] ∧
      (generate_checkpoints 1400 600).length = NUMBER_OF_CHECKPOINTS_PER_LEVEL)) ∧
    grassBp1400.checkpoints = generate_checkpoints 1400 600 ∧
    desertBp1400.checkpoints = generate_checkpoints 1400 600 ∧
    iceBp1400.checkpoints = generate_checkpoints 1400 600 :=
  ⟨(C7_checkpoints_deterministic 1400 600).1,
   (C7_checkpoints_deterministic 1400 600).2.1 ⟨0, listStream grassDraws1400⟩
     grassBp1400 ⟨33, listStream grassDraws1400⟩ grassRun1400_eq,
   (C7_checkpoints_deterministic 1400 600).2.2.1 ⟨0, listStream desertDraws1400⟩
     desertBp1400 ⟨93, listStream desertDraws1400⟩ desertRun1400_eq,
   (C7_checkpoints_deterministic 1400 600).2.2.2 ⟨0, listStream iceDraws1400⟩
     iceBp1400 ⟨45, listStream iceDraws1400⟩ iceRun1400_eq⟩

/-- C8: `add_goal` always yields the fixed footprint 60×250 at the
bottom-right formula `x = width - 120`, `y = height - 300` (so 2880 for
width 3000), and every blueprint of the three biome generators carries
`goal = some (add_goal width height)` — never `None`. -/
theorem C8_goal_fixed_footprint (w h : Int) :
    (add_goal w h = ⟨w - 120, h - 300, 60, 250⟩ ∧ (add_goal 3000 600).x = 2880) ∧
    (∀ s bp s', generate_world grassGen w h s = .ok (bp, s') →
      bp.goal = some (add_goal w h)) ∧
    (∀ s bp s', generate_world desertGen w h s = .ok (bp, s') →
      bp.goal = some (add_goal w h)) ∧
    (∀ s bp s', generate_world iceGen w h s = .ok (bp, s') →
      bp.goal = some (add_goal w h)) := by
  refine ⟨⟨rfl, rfl⟩, ?_, ?_, ?_⟩
  · intro s bp s' hok
    obtain ⟨_, _, _, _, _, _, _, _, -, -, -, -, h5⟩ := grass_ok_shape hok
    rw [h5]
  · intro s bp s' hok
    obtain ⟨_, _, _, _, _, _, _, _, -, -, -, -, h5⟩ := desert_ok_shape hok
    rw [h5]
  · intro s bp s' hok
    obtain ⟨_, _, _, _, _, _, _, _, -, -, -, -, h5⟩ := ice_ok_shape hok
    rw [h5]

/-- C8 witness: the goal of three concrete successful runs at width 1400 is
present with the fixed footprint at x = 1280. -/
theorem C8_witness :
    ((add_goal 1400 600 = ⟨1280, 300, 60, 250⟩ ∧ (add_goal 3000 600).x = 2880)) ∧
    grassBp1400.goal = some (add_goal 1400 600) ∧
    desertBp1400.goal = some (add_goal 1400 600) ∧
    iceBp1400.goal = some (add_goal 1400 600) :=
  ⟨(C8_goal_fixed_footprint 1400 600).1,
   (C8_goal_fixed_footprint 1400 600).2.1 ⟨0, listStream grassDraws1400⟩
     grassBp1400 ⟨33, listStream grassDraws1400⟩ grassRun1400_eq,
   (C8_goal_fixed_footprint 1400 600).2.2.1 ⟨0, listStream desertDraws1400⟩
     desertBp1400 ⟨93, listStream desertDraws1400⟩ desertRun1400_eq,
   (C8_goal_fixed_footprint 1400 600).2.2.2 ⟨0, listStream iceDraws1400⟩
     iceBp1400 ⟨45, listStream iceDraws1400⟩ iceRun1400_eq⟩

/-- C10: every blueprint the ice generator returns carries the two fields
absent from the documented data model, `slippery = True` and
`friction = 0.3` (added by its post-generation hook), while grass and
desert blueprints carry neither. -/
theorem C10_ice_slippery_friction (w h : Int) :
    (∀ s bp s', generate_world iceGen w h s = .ok (bp, s') →
      bp.slippery = some true ∧ bp.friction = some 0.3) ∧
    (∀ s bp s', generate_world grassGen w h s = .ok (bp, s') →
      bp.slippery = none ∧ bp.friction = none) ∧
    (∀ s bp s', generate_world desertGen w h s = .ok (bp, s') →
      bp.slippery = none ∧ bp.friction = none) := by
  refine ⟨?_, ?_, ?_⟩
  · intro s bp s' hok
    obtain ⟨_, _, _, _, _, _, _, _, -, -, -, -, h5⟩ := ice_ok_shape hok
    rw [h5]; exact ⟨rfl, rfl⟩
  · intro s bp s' hok
    obtain ⟨_, _, _, _, _, _, _, _, -, -, -, -, h5⟩ := grass_ok_shape hok
    rw [h5]; exact ⟨rfl, rfl⟩
  · intro s bp s' hok
    obtain ⟨_, _, _, _, _, _, _, _, -, -, -, -, h5⟩ := desert_ok_shape hok
    rw [h5]; exact ⟨rfl, rfl⟩

/-- C10 witness: the ice/grass/desert fields on three concrete runs. -/
theorem C10_witness :
    (iceBp1400.slippery = some true ∧ iceBp1400.friction = some 0.3) ∧
    (grassBp1400.slippery = none ∧ grassBp1400.friction = none) ∧
    (desertBp1400.slippery = none ∧ desertBp1400.friction = none) :=
  ⟨(C10_ice_slippery_friction 1400 600).1 ⟨0, listStream iceDraws1400⟩
     iceBp1400 ⟨45, listStream iceDraws1400⟩ iceRun1400_eq,
   (C10_ice_slippery_friction 1400 600).2.1 ⟨0, listStream grassDraws1400⟩
     grassBp1400 ⟨33, listStream grassDraws1400⟩ grassRun1400_eq,
   (C10_ice_slippery_friction 1400 600).2.2 ⟨0, listStream desertDraws1400⟩
     desertBp1400 ⟨93, listStream desertDraws1400⟩ desertRun1400_eq⟩

theorem powerup_checks_spec {x y : Int} {cps : List Checkpoint}
    {goal : Option Goal} {enemies : List Enemy} {acc : List Powerup}
    (h : powerup_checks x y cps goal enemies acc = true) :
    (∀ c ∈ cps, ¬(|x - c.x| < POWERUP_MIN_DISTANCE_CHECKPOINT ∧ |y - c.y| < 100)) ∧
    (∀ g, goal = some g →
      ¬(|x - g.x| < POWERUP_MIN_DISTANCE_GOAL ∧ |y - g.y| < 150)) ∧
    (∀ e ∈ enemies, POWERUP_MIN_DISTANCE_ENEMY ≤ |x - e.x|) ∧
    (∀ u ∈ acc, POWERUP_MIN_DISTANCE_POWERUP ≤ |x - u.x|) := by
  unfold powerup_checks at h
  simp only [Bool.and_eq_true, Bool.not_eq_true'] at h
  obtain ⟨⟨⟨hcp, hgoal⟩, henemy⟩, hpow⟩ := h
  refine ⟨?_, ?_, ?_, ?_⟩
  · intro c hc hcontra
    have : cps.any (fun c => decide (|x - c.x| < POWERUP_MIN_DISTANCE_CHECKPOINT)
        && decide (|y - c.y| < 100)) = true := by
      rw [List.any_eq_true]
      exact ⟨c, hc, by simp [hcontra.1, hcontra.2]⟩
    rw [this] at hcp
    exact absurd hcp (by simp)
  · intro g hg hcontra
    rw [hg] at hgoal
    simp only [Bool.and_eq_false_iff, decide_eq_false_iff_not, not_lt] at hgoal
    rcases hgoal with h1 | h1 <;> omega
  · intro e he
    by_contra hcontra
    have : enemies.any (fun e => decide (|x - e.x| < POWERUP_MIN_DISTANCE_ENEMY))
        = true := by
      rw [List.any_eq_true]
      exact ⟨e, he, by simp; omega⟩
    rw [this] at henemy
    exact absurd henemy (by simp)
  · intro u hu
    by_contra hcontra
    have : acc.any (fun u => decide (|x - u.x| < POWERUP_MIN_DISTANCE_POWERUP))
        = true := by
      rw [List.any_eq_true]
      exact ⟨u, hu, by simp; omega⟩
    rw [this] at hpow
    exact absurd hpow (by simp)


theorem add_powerups_loop_inv (gp : GenM PowerupType) (w h : Int)
    (plats : List Platform) (cps : List Checkpoint) (goal : Option Goal)
    (enemies : List Enemy) (num : Int) :
    ∀ (fuel : Nat) (acc : List Powerup) (s : Rng) (res : List Powerup) (s' : Rng),
      add_powerups_loop gp w h plats cps goal enemies num fuel acc s
        = .ok (res, s') →
      (∀ u ∈ acc, powerup_clear cps goal enemies u) → powerups_spaced acc →
      (∀ u ∈ res, powerup_clear cps goal enemies u) ∧ powerups_spaced res := by
  intro fuel
  induction fuel with
  | zero =>
    intro acc s res s' hok hc hsp
    simp only [add_powerups_loop, genm_pure_apply, Except.ok.injEq,
      Prod.mk.injEq] at hok
    rw [← hok.1]
    exact ⟨hc, hsp⟩
  | succ fuel ih =>
    intro acc s res s' hok hc hsp
    rw [add_powerups_loop] at hok
    split at hok
    case isFalse =>
      simp only [genm_pure_apply, Except.ok.injEq, Prod.mk.injEq] at hok
      rw [← hok.1]
      exact ⟨hc, hsp⟩
    case isTrue =>
      rw [genm_bind_apply] at hok
      cases hx : randint POWERUP_SAFE_ZONE (w - 200) s with
      | error e => rw [hx] at hok; exact absurd hok (by simp)
      | ok p =>
        obtain ⟨x0, s1⟩ := p
        rw [hx] at hok
        dsimp only at hok
        rw [genm_bind_apply] at hok
        cases hcc : choiceIdx 2 s1 with
        | error e => rw [hcc] at hok; exact absurd hok (by simp)
        | ok q =>
          obtain ⟨c, s2⟩ := q
          rw [hcc] at hok
          dsimp only at hok
          split at hok
          case isTrue =>
            rw [genm_bind_apply, genm_pure_apply] at hok
            dsimp only at hok
            cases hps : powerup_platform_search h x0 plats none with
            | none =>
              rw [hps] at hok
              exact ih acc s2 res s' hok hc hsp
            | some fp =>
              obtain ⟨f0, pl⟩ := fp
              rw [hps] at hok
              dsimp only at hok
              split at hok
              case isTrue hchecks =>
                rw [genm_bind_apply] at hok
                cases ht : gp s2 with
                | error e => rw [ht] at hok; exact absurd hok (by simp)
                | ok tp =>
                  obtain ⟨t, s3⟩ := tp
                  rw [ht] at hok
                  dsimp only at hok
                  obtain ⟨hcp, hgoal, henemy, hpow⟩ := powerup_checks_spec hchecks
                  refine ih _ s3 res s' hok ?_ ?_
                  · intro u hu
                    rcases List.mem_append.mp hu with hu | hu
                    · exact hc u hu
                    · rw [List.mem_singleton.mp hu]
                      exact ⟨hcp, hgoal, henemy⟩
                  · rw [powerups_spaced, List.pairwise_append]
                    refine ⟨hsp, List.pairwise_singleton _ _, ?_⟩
                    intro u hu v hv
                    rw [List.mem_singleton.mp hv]
                    have := hpow u hu
                    rw [abs_sub_comm] at this
                    exact this
              case isFalse =>
                exact ih acc s2 res s' hok hc hsp
          case isFalse =>
            rw [genm_bind_apply] at hok
            cases hy : randint (h - 400) (h - 150) s2 with
            | error e => rw [hy] at hok; exact absurd hok (by simp)
            | ok yp =>
              obtain ⟨y, s3⟩ := yp
              rw [hy] at hok
              dsimp only at hok
              rw [genm_bind_apply, genm_pure_apply] at hok
              dsimp only at hok
              split at hok
              case isTrue hchecks =>
                rw [genm_bind_apply] at hok
                cases ht : gp s3 with
                | error e => rw [ht] at hok; exact absurd hok (by simp)
                | ok tp =>
                  obtain ⟨t, s4⟩ := tp
                  rw [ht] at hok
                  dsimp only at hok
                  obtain ⟨hcp, hgoal, henemy, hpow⟩ := powerup_checks_spec hchecks
                  refine ih _ s4 res s' hok ?_ ?_
                  · intro u hu
                    rcases List.mem_append.mp hu with hu | hu
                    · exact hc u hu
                    · rw [List.mem_singleton.mp hu]
                      exact ⟨hcp, hgoal, henemy⟩
                  · rw [powerups_spaced, List.pairwise_append]
                    refine ⟨hsp, List.pairwise_singleton _ _, ?_⟩
                    intro u hu v hv
                    rw [List.mem_singleton.mp hv]
                    have := hpow u hu
                    rw [abs_sub_comm] at this
                    exact this
              case isFalse =>
                exact ih acc s3 res s' hok hc hsp

theorem add_powerups_ok_inv {gp : GenM PowerupType} {w h : Int}
    {plats : List Platform} {cps : List Checkpoint} {goal : Option Goal}
    {enemies : List Enemy} {s : Rng} {res : List Powerup} {s' : Rng}
    (hok : add_powerups gp w h plats cps goal enemies s = .ok (res, s')) :
    (∀ u ∈ res, powerup_clear cps goal enemies u) ∧ powerups_spaced res := by
  rw [add_powerups, genm_bind_apply] at hok
  cases hr : randint 2 4 s with
  | error e => rw [hr] at hok; exact absurd hok (by simp)
  | ok p =>
    obtain ⟨r, s1⟩ := p
    rw [hr] at hok
    dsimp only at hok
    exact add_powerups_loop_inv gp w h plats cps goal enemies _ _ [] s1 res s'
      hok (by simp) (by rw [powerups_spaced]; exact List.Pairwise.nil)

set_option maxHeartbeats 1000000 in
/-- C2: REFUTED as stated.  The spec claims five exclusion constraints —
checkpoint, goal, enemy, hazard, and other power-ups — but `add_powerups`
never receives the spike list and performs no hazard check at all.  In the
concrete grass run at width 1400, height 600 below, the blueprint contains
the power-up (1020, 450) sitting directly above the spike (1020, 518):
their squared distance is 68² = 4624, below the square of every configured
power-up minimum distance (the smallest being 120).  The same blueprint
also contains the power-up (810, 310) at squared Euclidean distance
19700 < 150² from the checkpoint (800, 450): the code's checkpoint test is
an axis-aligned box (|dx| < 150 and |dy| < 100), not the distance bound the
spec states, and |dy| = 140 passes it. -/
theorem C2_counterexample :
    (generate_world grassGen 1400 600 ⟨0, listStream grassDraws1400⟩
      = .ok (grassBp1400, ⟨33, listStream grassDraws1400⟩)) ∧
    (⟨1020, 450, 35, 35, .life⟩ : Powerup) ∈ grassBp1400.powerups ∧
    (⟨1020, 518, 38, 32, false⟩ : Spike) ∈ grassBp1400.spikes ∧
    (((1020 : Int) - 1020) ^ 2 + ((450 : Int) - 518) ^ 2 < 120 ^ 2) ∧
    ((120 : Int) ≤ POWERUP_MIN_DISTANCE_CHECKPOINT ∧
     (120 : Int) ≤ POWERUP_MIN_DISTANCE_GOAL ∧
     (120 : Int) ≤ POWERUP_MIN_DISTANCE_ENEMY ∧
     (120 : Int) ≤ POWERUP_MIN_DISTANCE_POWERUP) ∧
    (⟨810, 310, 35, 35, .life⟩ : Powerup) ∈ grassBp1400.powerups ∧
    (⟨800, 450⟩ : Checkpoint) ∈ grassBp1400.checkpoints ∧
    (((810 : Int) - 800) ^ 2 + ((310 : Int) - 450) ^ 2
      < POWERUP_MIN_DISTANCE_CHECKPOINT ^ 2) :=
  ⟨grassRun1400_eq, by decide, by decide, by decide, by decide, by decide,
   by decide, by decide⟩

/-- C2 (amended): what `add_powerups` actually enforces.  For every
blueprint any of the three biome generators returns, every power-up
satisfies the FOUR implemented exclusion checks — an axis-aligned box
around each checkpoint (|dx| < 150 and |dy| < 100), an axis-aligned box
around the goal (|dx| < 250 and |dy| < 150), horizontal distance ≥ 120
from every enemy, and horizontal distance ≥ 200 from every other
power-up.  There is no hazard check of any kind. -/
theorem C2_amended_powerup_constraints :
    (∀ (w h : Int) (s s' : Rng) (bp : Blueprint),
      generate_world grassGen w h s = .ok (bp, s') →
      (∀ u ∈ bp.powerups, powerup_clear bp.checkpoints bp.goal bp.enemies u) ∧
      powerups_spaced bp.powerups) ∧
    (∀ (w h : Int) (s s' : Rng) (bp : Blueprint),
      generate_world desertGen w h s = .ok (bp, s') →
      (∀ u ∈ bp.powerups, powerup_clear bp.checkpoints bp.goal bp.enemies u) ∧
      powerups_spaced bp.powerups) ∧
    (∀ (w h : Int) (s s' : Rng) (bp : Blueprint),
      generate_world iceGen w h s = .ok (bp, s') →
      (∀ u ∈ bp.powerups, powerup_clear bp.checkpoints bp.goal bp.enemies u) ∧
      powerups_spaced bp.powerups) := by
  refine ⟨?_, ?_, ?_⟩
  · intro w h s s' bp hok
    obtain ⟨plats, s1, spikes, s2, enemies, s3, pows, s4, _, _, _, h4, h5⟩ :=
      grass_ok_shape hok
    rw [h5]
    exact add_powerups_ok_inv h4
  · intro w h s s' bp hok
    obtain ⟨plats, s1, spikes, s2, enemies, s3, pows, s4, _, _, _, h4, h5⟩ :=
      desert_ok_shape hok
    rw [h5]
    exact add_powerups_ok_inv h4
  · intro w h s s' bp hok
    obtain ⟨plats, s1, spikes, s2, enemies, s3, pows, s4, _, _, _, h4, h5⟩ :=
      ice_ok_shape hok
    rw [h5]
    exact add_powerups_ok_inv h4

/-- C2 witness: the amended theorem applied to the three concrete runs at
width 1400, height 600. -/
theorem C2_witness :
    ((∀ u ∈ grassBp1400.powerups,
        powerup_clear grassBp1400.checkpoints grassBp1400.goal
          grassBp1400.enemies u) ∧ powerups_spaced grassBp1400.powerups) ∧
    ((∀ u ∈ desertBp1400.powerups,
        powerup_clear desertBp1400.checkpoints desertBp1400.goal
          desertBp1400.enemies u) ∧ powerups_spaced desertBp1400.powerups) ∧
    ((∀ u ∈ iceBp1400.powerups,
        powerup_clear iceBp1400.checkpoints iceBp1400.goal
          iceBp1400.enemies u) ∧ powerups_spaced iceBp1400.powerups) :=
  ⟨C2_amended_powerup_constraints.1 1400 600 ⟨0, listStream grassDraws1400⟩
      ⟨33, listStream grassDraws1400⟩ grassBp1400 grassRun1400_eq,
   C2_amended_powerup_constraints.2.1 1400 600 ⟨0, listStream desertDraws1400⟩
      ⟨93, listStream desertDraws1400⟩ desertBp1400 desertRun1400_eq,
   C2_amended_powerup_constraints.2.2 1400 600 ⟨0, listStream iceDraws1400⟩
      ⟨45, listStream iceDraws1400⟩ iceBp1400 iceRun1400_eq⟩

theorem rects_properly_overlap_symm {p q : Platform}
    (h : rects_properly_overlap p q) : rects_properly_overlap q p := by
  obtain ⟨h1, h2, h3, h4⟩ := h
  exact ⟨h2, h1, h4, h3⟩

theorem not_proper_of_overlap_false {x y pw ph : Int} {p : Platform}
    (h : rectangles_overlap x y pw ph p.x p.y p.width p.height = false) :
    ¬ rects_properly_overlap p ⟨x, y, pw, ph⟩ := by
  simp only [rectangles_overlap, Bool.not_eq_false', Bool.or_eq_true,
    decide_eq_true_eq] at h
  intro hov
  obtain ⟨h1, h2, h3, h4⟩ := hov
  dsimp only at h1 h2 h3 h4
  omega

theorem overlaps_existing_false {x y pw ph : Int} {acc : List Platform}
    (h : overlaps_existing x y pw ph acc = false) :
    ∀ p ∈ acc, ¬ rects_properly_overlap p ⟨x, y, pw, ph⟩ := by
  intro p hp
  rw [overlaps_existing, List.any_eq_false] at h
  have := h p hp
  exact not_proper_of_overlap_false (by simpa using this)

theorem plats_inv_append_checked {w h wmin wmax hgt ymax x y pw ph : Int}
    {acc : List Platform}
    (hinv : plats_inv w h wmin wmax hgt ymax acc)
    (hov : overlaps_existing x y pw ph acc = false)
    (hsh : plat_shape wmin wmax hgt ymax ⟨x, y, pw, ph⟩) :
    plats_inv w h wmin wmax hgt ymax (acc ++ [⟨x, y, pw, ph⟩]) := by
  obtain ⟨rest, hl, hshapes, hdisj⟩ := hinv
  refine ⟨rest ++ [⟨x, y, pw, ph⟩], by rw [hl]; rfl, ?_, ?_⟩
  · intro p hp
    rcases List.mem_append.mp hp with hp | hp
    · exact hshapes p hp
    · rw [List.mem_singleton.mp hp]; exact hsh
  · rw [platforms_disjoint, List.pairwise_append]
    refine ⟨hdisj, List.pairwise_singleton _ _, ?_⟩
    intro p hp c hc
    rw [List.mem_singleton.mp hc]
    exact overlaps_existing_false hov p hp

theorem plats_inv_append_spacing {w h wmin wmax hgt ymax hband : Int}
    {c : Platform} {acc : List Platform}
    (hinv : plats_inv w h wmin wmax hgt ymax acc)
    (hsp : final_spacing_ok c.x c.y hband acc = true)
    (hsh : plat_shape wmin wmax hgt ymax c)
    (hband1 : wmax ≤ hband) (hband2 : c.width ≤ hband)
    (hhgt : hgt ≤ 80) (hymax : ymax ≤ h - 60) :
    plats_inv w h wmin wmax hgt ymax (acc ++ [c]) := by
  obtain ⟨rest, hl, hshapes, hdisj⟩ := hinv
  have hfar : ∀ p ∈ acc, ¬(|c.x - p.x| < hband ∧ |c.y - p.y| < MIN_VERTICAL_SPACING) := by
    intro p hp
    rw [final_spacing_ok, Bool.not_eq_true', List.any_eq_false] at hsp
    have := hsp p hp
    simpa using this
  have hnov : ∀ p ∈ acc, ¬ rects_properly_overlap p c := by
    intro p hp
    rw [hl] at hp
    rcases List.mem_cons.mp hp with hp | hp
    · -- the ground platform: the candidate's bottom edge is above its top
      rw [hp]
      intro hov
      obtain ⟨-, -, -, h4⟩ := hov
      obtain ⟨-, -, hh, hy⟩ := hsh
      dsimp only at h4
      omega
    · -- a shaped platform: the spacing rule separates on one axis
      have hps := hshapes p hp
      have hfp := hfar p (by rw [hl]; exact List.mem_cons_of_mem _ hp)
      intro hov
      obtain ⟨h1, h2, h3, h4⟩ := hov
      obtain ⟨-, hpw, hph, -⟩ := hps
      obtain ⟨-, -, hch, -⟩ := hsh
      rw [MIN_VERTICAL_SPACING] at hfp
      rw [not_and_or] at hfp
      rcases hfp with hfp | hfp
      · rw [not_lt, le_abs] at hfp
        rcases hfp with hd | hd <;> omega
      · rw [not_lt, le_abs] at hfp
        rcases hfp with hd | hd <;> omega
  refine ⟨rest ++ [c], by rw [hl]; rfl, ?_, ?_⟩
  · intro p hp
    rcases List.mem_append.mp hp with hp | hp
    · exact hshapes p hp
    · rw [List.mem_singleton.mp hp]; exact hsh
  · rw [platforms_disjoint, List.pairwise_append]
    exact ⟨hdisj, List.pairwise_singleton _ _,
      fun p hp c' hc' => by rw [List.mem_singleton.mp hc']; exact hnov p hp⟩

theorem grass_segment_attempts_inv {w : Int} (h : Int) (cps : List Checkpoint)
    (seg_start seg_end seg_width num : Int) :
    ∀ (fuel : Nat) (added : Int) (acc : List Platform) (s : Rng)
      (res : List Platform) (s' : Rng),
      grass_segment_attempts h cps seg_start seg_end seg_width num fuel added acc s
        = .ok (res, s') →
      plats_inv w h 120 180 20 (h - 110) acc →
      plats_inv w h 120 180 20 (h - 110) res := by
  intro fuel
  induction fuel with
  | zero =>
    intro added acc s res s' hok hinv
    simp only [grass_segment_attempts, genm_pure_apply, Except.ok.injEq,
      Prod.mk.injEq] at hok
    rw [← hok.1]; exact hinv
  | succ fuel ih =>
    intro added acc s res s' hok hinv
    rw [grass_segment_attempts] at hok
    split at hok
    case isFalse =>
      simp only [genm_pure_apply, Except.ok.injEq, Prod.mk.injEq] at hok
      rw [← hok.1]; exact hinv
    case isTrue =>
      dsimp only at hok
      split at hok
      case isTrue =>
        simp only [genm_pure_apply, Except.ok.injEq, Prod.mk.injEq] at hok
        rw [← hok.1]; exact hinv
      case isFalse =>
        rw [genm_bind_apply] at hok
        cases hx : randint (seg_start + seg_width.tdiv 10)
            (seg_end - (seg_width * 15).tdiv 100) s with
        | error e => rw [hx] at hok; exact absurd hok (by simp)
        | ok p =>
          obtain ⟨x, s1⟩ := p
          rw [hx] at hok
          dsimp only at hok
          rw [genm_bind_apply] at hok
          cases hy : randint (h - 280) (h - 130) s1 with
          | error e => rw [hy] at hok; exact absurd hok (by simp)
          | ok q =>
            obtain ⟨y, s2⟩ := q
            rw [hy] at hok
            dsimp only at hok
            rw [genm_bind_apply] at hok
            cases hpw : randint 130 180 s2 with
            | error e => rw [hpw] at hok; exact absurd hok (by simp)
            | ok r =>
              obtain ⟨pw, s3⟩ := r
              rw [hpw] at hok
              dsimp only at hok
              split at hok
              case isTrue => exact ih added acc s3 res s' hok hinv
              case isFalse =>
                split at hok
                case isTrue => exact ih added acc s3 res s' hok hinv
                case isFalse hov =>
                  split at hok
                  case isTrue => exact ih added acc s3 res s' hok hinv
                  case isFalse =>
                    split at hok
                    case isTrue => exact ih added acc s3 res s' hok hinv
                    case isFalse =>
                      refine ih (added + 1) _ s3 res s' hok ?_
                      refine plats_inv_append_checked hinv
                        (by simpa using hov) ?_
                      obtain ⟨-, hy2⟩ := randint_ok_bounds hy
                      obtain ⟨hpw1, hpw2⟩ := randint_ok_bounds hpw
                      exact ⟨by dsimp only; omega, by dsimp only; omega,
                        rfl, by dsimp only; omega⟩

theorem grass_segments_inv {w : Int} (h : Int) (cps : List Checkpoint)
    (start_generation seg_width : Int) :
    ∀ (remaining seg : Nat) (acc : List Platform) (s : Rng)
      (res : List Platform) (s' : Rng),
      grass_segments h cps start_generation seg_width seg remaining acc s
        = .ok (res, s') →
      plats_inv w h 120 180 20 (h - 110) acc →
      plats_inv w h 120 180 20 (h - 110) res := by
  intro remaining
  induction remaining with
  | zero =>
    intro seg acc s res s' hok hinv
    simp only [grass_segments, genm_pure_apply, Except.ok.injEq,
      Prod.mk.injEq] at hok
    rw [← hok.1]; exact hinv
  | succ remaining ih =>
    intro seg acc s res s' hok hinv
    rw [grass_segments, genm_bind_apply] at hok
    cases hn : randint 1 3 s with
    | error e => rw [hn] at hok; exact absurd hok (by simp)
    | ok p =>
      obtain ⟨num, s1⟩ := p
      rw [hn] at hok
      dsimp only at hok
      rw [genm_bind_apply] at hok
      cases ha : grass_segment_attempts h cps
          (start_generation + (seg : Int) * seg_width)
          (start_generation + (seg : Int) * seg_width + seg_width)
          seg_width num 20 0 acc s1 with
      | error e => rw [ha] at hok; exact absurd hok (by simp)
      | ok q =>
        obtain ⟨acc', s2⟩ := q
        rw [ha] at hok
        dsimp only at hok
        exact ih (seg + 1) acc' s2 res s' hok
          (grass_segment_attempts_inv h cps _ _ _ _ 20 0 acc s1 acc' s2 ha hinv)

theorem not_overlap_of_y_gap {p q : Platform} (hy : q.y + q.height ≤ p.y) :
    ¬ rects_properly_overlap p q := fun ⟨_, _, _, h4⟩ => absurd h4 (by omega)

theorem not_overlap_of_x_gap {p q : Platform} (hx : p.x + p.width ≤ q.x) :
    ¬ rects_properly_overlap p q := fun ⟨h1, _, _, _⟩ => absurd h1 (by omega)

theorem genm_bind_pure_ok {α β : Type} {m : GenM α} {g : α → β} {s s' : Rng}
    {b : β} (hok : (m >>= fun a => (pure (g a) : GenM β)) s = .ok (b, s')) :
    ∃ a, m s = .ok (a, s') ∧ b = g a := by
  rw [genm_bind_apply] at hok
  cases hm : m s with
  | error e => rw [hm] at hok; exact absurd hok (by simp)
  | ok p =>
    obtain ⟨a, s1⟩ := p
    rw [hm] at hok
    dsimp only at hok
    rw [genm_pure_apply] at hok
    simp only [Except.ok.injEq, Prod.mk.injEq] at hok
    exact ⟨a, by rw [hok.2], hok.1.symm⟩

theorem plats_inv_final_if {w h wmin wmax hgt ymax hband : Int} {c : Platform}
    {acc : List Platform} {b : Bool}
    (hinv : plats_inv w h wmin wmax hgt ymax acc)
    (hsh : plat_shape wmin wmax hgt ymax c)
    (hband1 : wmax ≤ hband) (hband2 : c.width ≤ hband)
    (hhgt : hgt ≤ 80) (hymax : ymax ≤ h - 60) :
    plats_inv w h wmin wmax hgt ymax
      (if b && final_spacing_ok c.x c.y hband acc then acc ++ [c] else acc) := by
  split
  case isTrue hc =>
    obtain ⟨-, hsp⟩ := Bool.and_eq_true_iff.mp hc
    exact plats_inv_append_spacing hinv hsp hsh hband1 hband2 hhgt hymax
  case isFalse => exact hinv

theorem grass_start_inv (w h : Int) (c1 c2 : Prop) [Decidable c1] [Decidable c2] :
    plats_inv w h 120 180 20 (h - 110)
      (if c2 then
        (if c1 then [(⟨0, h - 50, w, 50⟩ : Platform)] ++ [⟨150, h - 150, 150, 20⟩]
         else [⟨0, h - 50, w, 50⟩]) ++ [⟨350, h - 220, 130, 20⟩]
       else
        (if c1 then [(⟨0, h - 50, w, 50⟩ : Platform)] ++ [⟨150, h - 150, 150, 20⟩]
         else [⟨0, h - 50, w, 50⟩])) := by
  have shf1 : plat_shape 120 180 20 (h - 110) ⟨150, h - 150, 150, 20⟩ :=
    ⟨by norm_num, by norm_num, rfl, by dsimp only; omega⟩
  have shf2 : plat_shape 120 180 20 (h - 110) ⟨350, h - 220, 130, 20⟩ :=
    ⟨by norm_num, by norm_num, rfl, by dsimp only; omega⟩
  have hgf1 : ¬ rects_properly_overlap ⟨0, h - 50, w, 50⟩ ⟨150, h - 150, 150, 20⟩ :=
    not_overlap_of_y_gap (by dsimp only; omega)
  have hgf2 : ¬ rects_properly_overlap ⟨0, h - 50, w, 50⟩ ⟨350, h - 220, 130, 20⟩ :=
    not_overlap_of_y_gap (by dsimp only; omega)
  have hf12 : ¬ rects_properly_overlap ⟨150, h - 150, 150, 20⟩ ⟨350, h - 220, 130, 20⟩ :=
    not_overlap_of_x_gap (by dsimp only; omega)
  split_ifs with hc2 hc1 hc1
  · refine ⟨[⟨150, h - 150, 150, 20⟩, ⟨350, h - 220, 130, 20⟩], rfl, ?_, ?_⟩
    · intro p hp
      rcases List.mem_cons.mp hp with hp | hp
      · rw [hp]; exact shf1
      · rw [List.mem_singleton.mp hp]; exact shf2
    · rw [platforms_disjoint]
      refine List.Pairwise.cons ?_ (List.Pairwise.cons ?_ (List.pairwise_singleton _ _))
      · intro q hq
        rcases List.mem_cons.mp hq with hq | hq
        · rw [hq]; exact hgf1
        · rw [List.mem_singleton.mp hq]; exact hgf2
      · intro q hq
        rw [List.mem_singleton.mp hq]; exact hf12
  · refine ⟨[⟨350, h - 220, 130, 20⟩], rfl, ?_, ?_⟩
    · intro p hp
      rw [List.mem_singleton.mp hp]; exact shf2
    · rw [platforms_disjoint]
      exact List.Pairwise.cons
        (fun q hq => by rw [List.mem_singleton.mp hq]; exact hgf2)
        (List.pairwise_singleton _ _)
  · refine ⟨[⟨150, h - 150, 150, 20⟩], rfl, ?_, ?_⟩
    · intro p hp
      rw [List.mem_singleton.mp hp]; exact shf1
    · rw [platforms_disjoint]
      exact List.Pairwise.cons
        (fun q hq => by rw [List.mem_singleton.mp hq]; exact hgf1)
        (List.pairwise_singleton _ _)
  · exact ⟨[], rfl, by simp, by rw [platforms_disjoint]; exact List.pairwise_singleton _ _⟩

theorem grass_generate_platforms_inv {w h : Int} {cps : List Checkpoint}
    {s s' : Rng} {plats : List Platform}
    (hok : grass_generate_platforms w h cps s = .ok (plats, s')) :
    plats_inv w h 120 180 20 (h - 110) plats := by
  rw [grass_generate_platforms] at hok
  dsimp only at hok
  obtain ⟨ps, hseg, hplats⟩ := genm_bind_pure_ok hok
  have hps : plats_inv w h 120 180 20 (h - 110) ps :=
    grass_segments_inv h cps 600 ((w - 400 - 600).ediv 6) 6 0 _ s ps s' hseg
      (grass_start_inv w h _ _)
  rw [hplats]
  refine plats_inv_final_if (c := ⟨w - 220, h - 140, 120, 20⟩) ?_ ?_ ?_ ?_ ?_ ?_
  · exact plats_inv_final_if (c := ⟨w - 400, h - 170, 150, 20⟩) hps
      ⟨by norm_num, by norm_num, rfl, by dsimp only; omega⟩
      (by norm_num) (by norm_num) (by norm_num) (by omega)
  · exact ⟨by norm_num, by norm_num, rfl, by dsimp only; omega⟩
  · norm_num
  · norm_num
  · norm_num
  · omega

theorem genm_bind_ok {α β : Type} {m : GenM α} {f : α → GenM β} {s s' : Rng}
    {b : β} (hok : (m >>= f) s = .ok (b, s')) :
    ∃ a s1, m s = .ok (a, s1) ∧ f a s1 = .ok (b, s') := by
  rw [genm_bind_apply] at hok
  cases hm : m s with
  | error e => rw [hm] at hok; exact absurd hok (by simp)
  | ok p =>
    obtain ⟨a, s1⟩ := p
    rw [hm] at hok
    exact ⟨a, s1, rfl, hok⟩

theorem desert_segment_attempts_inv {w : Int} (h : Int) (cps : List Checkpoint)
    (seg_start seg_end seg_width num : Int) :
    ∀ (fuel : Nat) (added : Int) (acc : List Platform) (s : Rng)
      (res : List Platform) (s' : Rng),
      desert_segment_attempts h cps seg_start seg_end seg_width num fuel added acc s
        = .ok (res, s') →
      plats_inv w h 80 140 18 (h - 112) acc →
      plats_inv w h 80 140 18 (h - 112) res := by
  intro fuel
  induction fuel with
  | zero =>
    intro added acc s res s' hok hinv
    simp only [desert_segment_attempts, genm_pure_apply, Except.ok.injEq,
      Prod.mk.injEq] at hok
    rw [← hok.1]; exact hinv
  | succ fuel ih =>
    intro added acc s res s' hok hinv
    rw [desert_segment_attempts] at hok
    split at hok
    case isFalse =>
      simp only [genm_pure_apply, Except.ok.injEq, Prod.mk.injEq] at hok
      rw [← hok.1]; exact hinv
    case isTrue =>
      dsimp only at hok
      split at hok
      case isTrue =>
        simp only [genm_pure_apply, Except.ok.injEq, Prod.mk.injEq] at hok
        rw [← hok.1]; exact hinv
      case isFalse =>
        obtain ⟨x, s1, hx, hok⟩ := genm_bind_ok hok
        obtain ⟨y, s2, hy, hok⟩ := genm_bind_ok hok
        obtain ⟨pw, s3, hpw, hok⟩ := genm_bind_ok hok
        split at hok
        case isTrue => exact ih added acc s3 res s' hok hinv
        case isFalse =>
          split at hok
          case isTrue => exact ih added acc s3 res s' hok hinv
          case isFalse hov =>
            split at hok
            case isTrue => exact ih added acc s3 res s' hok hinv
            case isFalse =>
              split at hok
              case isTrue => exact ih added acc s3 res s' hok hinv
              case isFalse =>
                refine ih (added + 1) _ s3 res s' hok ?_
                refine plats_inv_append_checked hinv (by simpa using hov) ?_
                obtain ⟨-, hy2⟩ := randint_ok_bounds hy
                obtain ⟨hpw1, hpw2⟩ := randint_ok_bounds hpw
                exact ⟨by dsimp only; omega, by dsimp only; omega,
                  rfl, by dsimp only; omega⟩

theorem desert_segments_inv {w : Int} (h : Int) (cps : List Checkpoint)
    (start_generation seg_width : Int) :
    ∀ (remaining seg : Nat) (acc : List Platform) (s : Rng)
      (res : List Platform) (s' : Rng),
      desert_segments h cps start_generation seg_width seg remaining acc s
        = .ok (res, s') →
      plats_inv w h 80 140 18 (h - 112) acc →
      plats_inv w h 80 140 18 (h - 112) res := by
  intro remaining
  induction remaining with
  | zero =>
    intro seg acc s res s' hok hinv
    simp only [desert_segments, genm_pure_apply, Except.ok.injEq,
      Prod.mk.injEq] at hok
    rw [← hok.1]; exact hinv
  | succ remaining ih =>
    intro seg acc s res s' hok hinv
    rw [desert_segments] at hok
    obtain ⟨num, s1, hn, hok⟩ := genm_bind_ok hok
    obtain ⟨acc', s2, ha, hok⟩ := genm_bind_ok hok
    exact ih (seg + 1) acc' s2 res s' hok
      (desert_segment_attempts_inv h cps _ _ _ _ 25 0 acc s1 acc' s2 ha hinv)

theorem desert_high_attempts_inv {w : Int} (h : Int) (cps : List Checkpoint)
    (start_generation seg_width : Int) (zone : Nat) :
    ∀ (fuel : Nat) (acc : List Platform) (s : Rng)
      (res : List Platform) (s' : Rng),
      desert_high_attempts h cps start_generation seg_width zone fuel acc s
        = .ok (res, s') →
      plats_inv w h 80 140 18 (h - 112) acc →
      plats_inv w h 80 140 18 (h - 112) res := by
  intro fuel
  induction fuel with
  | zero =>
    intro acc s res s' hok hinv
    simp only [desert_high_attempts, genm_pure_apply, Except.ok.injEq,
      Prod.mk.injEq] at hok
    rw [← hok.1]; exact hinv
  | succ fuel ih =>
    intro acc s res s' hok hinv
    rw [desert_high_attempts] at hok
    dsimp only at hok
    obtain ⟨dy, s1, hdy, hok⟩ := genm_bind_ok hok
    obtain ⟨hw0, s2, hhw, hok⟩ := genm_bind_ok hok
    obtain ⟨dx, s3, hdx, hok⟩ := genm_bind_ok hok
    split at hok
    case isTrue => exact ih acc s3 res s' hok hinv
    case isFalse =>
      split at hok
      case isTrue => exact ih acc s3 res s' hok hinv
      case isFalse hov =>
        split at hok
        case isTrue => exact ih acc s3 res s' hok hinv
        case isFalse =>
          split at hok
          case isTrue => exact ih acc s3 res s' hok hinv
          case isFalse =>
            simp only [genm_pure_apply, Except.ok.injEq, Prod.mk.injEq] at hok
            rw [← hok.1]
            refine plats_inv_append_checked hinv (by simpa using hov) ?_
            obtain ⟨hdy1, -⟩ := randint_ok_bounds hdy
            obtain ⟨hhw1, hhw2⟩ := randint_ok_bounds hhw
            exact ⟨by dsimp only; omega, by dsimp only; omega,
              rfl, by dsimp only; omega⟩

theorem desert_high_zones_inv {w : Int} (h : Int) (cps : List Checkpoint)
    (start_generation seg_width : Int) :
    ∀ (zones : List Nat) (acc : List Platform) (s : Rng)
      (res : List Platform) (s' : Rng),
      desert_high_zones h cps start_generation seg_width zones acc s
        = .ok (res, s') →
      plats_inv w h 80 140 18 (h - 112) acc →
      plats_inv w h 80 140 18 (h - 112) res := by
  intro zones
  induction zones with
  | nil =>
    intro acc s res s' hok hinv
    simp only [desert_high_zones, genm_pure_apply, Except.ok.injEq,
      Prod.mk.injEq] at hok
    rw [← hok.1]; exact hinv
  | cons z rest ih =>
    intro acc s res s' hok hinv
    rw [desert_high_zones] at hok
    obtain ⟨acc', s1, ha, hok⟩ := genm_bind_ok hok
    exact ih acc' s1 res s' hok
      (desert_high_attempts_inv h cps _ _ z 15 acc s acc' s1 ha hinv)

theorem desert_highs_inv {w : Int} {h : Int} {cps : List Checkpoint}
    {start_generation seg_width : Int} {acc : List Platform} {s : Rng}
    {res : List Platform} {s' : Rng}
    (hok : desert_highs h cps start_generation seg_width acc s = .ok (res, s'))
    (hinv : plats_inv w h 80 140 18 (h - 112) acc) :
    plats_inv w h 80 140 18 (h - 112) res := by
  rw [desert_highs] at hok
  obtain ⟨num, s1, hn, hok⟩ := genm_bind_ok hok
  dsimp only at hok
  obtain ⟨sel, s2, hsel, hok⟩ := genm_bind_ok hok
  exact desert_high_zones_inv h cps _ _ sel acc s2 res s' hok hinv

theorem desert_start_inv (w h : Int) (c1 c2 : Prop) [Decidable c1] [Decidable c2] :
    plats_inv w h 80 140 18 (h - 112)
      (if c2 then
        (if c1 then [(⟨0, h - 50, w, 50⟩ : Platform)] ++ [⟨180, h - 180, 120, 18⟩]
         else [⟨0, h - 50, w, 50⟩]) ++ [⟨380, h - 240, 110, 18⟩]
       else
        (if c1 then [(⟨0, h - 50, w, 50⟩ : Platform)] ++ [⟨180, h - 180, 120, 18⟩]
         else [⟨0, h - 50, w, 50⟩])) := by
  have shf1 : plat_shape 80 140 18 (h - 112) ⟨180, h - 180, 120, 18⟩ :=
    ⟨by norm_num, by norm_num, rfl, by dsimp only; omega⟩
  have shf2 : plat_shape 80 140 18 (h - 112) ⟨380, h - 240, 110, 18⟩ :=
    ⟨by norm_num, by norm_num, rfl, by dsimp only; omega⟩
  have hgf1 : ¬ rects_properly_overlap ⟨0, h - 50, w, 50⟩ ⟨180, h - 180, 120, 18⟩ :=
    not_overlap_of_y_gap (by dsimp only; omega)
  have hgf2 : ¬ rects_properly_overlap ⟨0, h - 50, w, 50⟩ ⟨380, h - 240, 110, 18⟩ :=
    not_overlap_of_y_gap (by dsimp only; omega)
  have hf12 : ¬ rects_properly_overlap ⟨180, h - 180, 120, 18⟩ ⟨380, h - 240, 110, 18⟩ :=
    not_overlap_of_x_gap (by dsimp only; omega)
  split_ifs with hc2 hc1 hc1
  · refine ⟨[⟨180, h - 180, 120, 18⟩, ⟨380, h - 240, 110, 18⟩], rfl, ?_, ?_⟩
    · intro p hp
      rcases List.mem_cons.mp hp with hp | hp
      · rw [hp]; exact shf1
      · rw [List.mem_singleton.mp hp]; exact shf2
    · rw [platforms_disjoint]
      refine List.Pairwise.cons ?_ (List.Pairwise.cons ?_ (List.pairwise_singleton _ _))
      · intro q hq
        rcases List.mem_cons.mp hq with hq | hq
        · rw [hq]; exact hgf1
        · rw [List.mem_singleton.mp hq]; exact hgf2
      · intro q hq
        rw [List.mem_singleton.mp hq]; exact hf12
  · refine ⟨[⟨380, h - 240, 110, 18⟩], rfl, ?_, ?_⟩
    · intro p hp
      rw [List.mem_singleton.mp hp]; exact shf2
    · rw [platforms_disjoint]
      exact List.Pairwise.cons
        (fun q hq => by rw [List.mem_singleton.mp hq]; exact hgf2)
        (List.pairwise_singleton _ _)
  · refine ⟨[⟨180, h - 180, 120, 18⟩], rfl, ?_, ?_⟩
    · intro p hp
      rw [List.mem_singleton.mp hp]; exact shf1
    · rw [platforms_disjoint]
      exact List.Pairwise.cons
        (fun q hq => by rw [List.mem_singleton.mp hq]; exact hgf1)
        (List.pairwise_singleton _ _)
  · exact ⟨[], rfl, by simp, by rw [platforms_disjoint]; exact List.pairwise_singleton _ _⟩

theorem desert_generate_platforms_inv {w h : Int} {cps : List Checkpoint}
    {s s' : Rng} {plats : List Platform}
    (hok : desert_generate_platforms w h cps s = .ok (plats, s')) :
    plats_inv w h 80 140 18 (h - 112) plats := by
  rw [desert_generate_platforms] at hok
  dsimp only at hok
  obtain ⟨p1, s1, hseg, hok⟩ := genm_bind_ok hok
  obtain ⟨p2, hhigh, hplats⟩ := genm_bind_pure_ok hok
  have hp1 : plats_inv w h 80 140 18 (h - 112) p1 :=
    desert_segments_inv h cps 600 ((w - 400 - 600).ediv 7) 7 0 _ s p1 s1 hseg
      (desert_start_inv w h _ _)
  have hp2 : plats_inv w h 80 140 18 (h - 112) p2 := desert_highs_inv hhigh hp1
  rw [hplats]
  exact plats_inv_final_if (c := ⟨w - 350, h - 190, 130, 18⟩) hp2
    ⟨by norm_num, by norm_num, rfl, by dsimp only; omega⟩
    (by norm_num) (by norm_num) (by norm_num) (by omega)

theorem ice_segment_attempts_inv {w : Int} (h : Int) (cps : List Checkpoint)
    (seg_start seg_end seg_width : Int) :
    ∀ (fuel : Nat) (acc : List Platform) (s : Rng)
      (res : List Platform) (s' : Rng),
      ice_segment_attempts h cps seg_start seg_end seg_width fuel acc s
        = .ok (res, s') →
      plats_inv w h 65 95 15 (h - 125) acc →
      plats_inv w h 65 95 15 (h - 125) res := by
  intro fuel
  induction fuel with
  | zero =>
    intro acc s res s' hok hinv
    simp only [ice_segment_attempts, genm_pure_apply, Except.ok.injEq,
      Prod.mk.injEq] at hok
    rw [← hok.1]; exact hinv
  | succ fuel ih =>
    intro acc s res s' hok hinv
    rw [ice_segment_attempts] at hok
    split at hok
    case isTrue =>
      simp only [genm_pure_apply, Except.ok.injEq, Prod.mk.injEq] at hok
      rw [← hok.1]; exact hinv
    case isFalse =>
      obtain ⟨x, s1, hx, hok⟩ := genm_bind_ok hok
      obtain ⟨y, s2, hy, hok⟩ := genm_bind_ok hok
      obtain ⟨pw, s3, hpw, hok⟩ := genm_bind_ok hok
      split at hok
      case isTrue => exact ih acc s3 res s' hok hinv
      case isFalse =>
        split at hok
        case isTrue => exact ih acc s3 res s' hok hinv
        case isFalse hov =>
          split at hok
          case isTrue => exact ih acc s3 res s' hok hinv
          case isFalse =>
            split at hok
            case isTrue => exact ih acc s3 res s' hok hinv
            case isFalse =>
              simp only [genm_pure_apply, Except.ok.injEq, Prod.mk.injEq] at hok
              rw [← hok.1]
              refine plats_inv_append_checked hinv (by simpa using hov) ?_
              obtain ⟨-, hy2⟩ := randint_ok_bounds hy
              obtain ⟨hpw1, hpw2⟩ := randint_ok_bounds hpw
              exact ⟨by dsimp only; omega, by dsimp only; omega,
                rfl, by dsimp only; omega⟩

theorem ice_segments_inv {w : Int} (h : Int) (cps : List Checkpoint)
    (start_generation seg_width : Int) :
    ∀ (remaining seg : Nat) (acc : List Platform) (s : Rng)
      (res : List Platform) (s' : Rng),
      ice_segments h cps start_generation seg_width seg remaining acc s
        = .ok (res, s') →
      plats_inv w h 65 95 15 (h - 125) acc →
      plats_inv w h 65 95 15 (h - 125) res := by
  intro remaining
  induction remaining with
  | zero =>
    intro seg acc s res s' hok hinv
    simp only [ice_segments, genm_pure_apply, Except.ok.injEq,
      Prod.mk.injEq] at hok
    rw [← hok.1]; exact hinv
  | succ remaining ih =>
    intro seg acc s res s' hok hinv
    rw [ice_segments] at hok
    obtain ⟨roll, s1, hr, hok⟩ := genm_bind_ok hok
    dsimp only at hok
    split at hok
    case isTrue =>
      obtain ⟨acc', s2, ha, hok⟩ := genm_bind_ok hok
      exact ih (seg + 1) acc' s2 res s' hok
        (ice_segment_attempts_inv h cps _ _ _ 30 acc s1 acc' s2 ha hinv)
    case isFalse =>
      obtain ⟨acc', s2, ha, hok⟩ := genm_bind_ok hok
      rw [genm_pure_apply] at ha
      simp only [Except.ok.injEq, Prod.mk.injEq] at ha
      refine ih (seg + 1) acc' s2 res s' hok ?_
      rw [← ha.1]; exact hinv

theorem ice_start_inv (w h : Int) (c1 c2 : Prop) [Decidable c1] [Decidable c2] :
    plats_inv w h 65 95 15 (h - 125)
      (if c2 then
        (if c1 then [(⟨0, h - 50, w, 50⟩ : Platform)] ++ [⟨220, h - 200, 85, 15⟩]
         else [⟨0, h - 50, w, 50⟩]) ++ [⟨450, h - 280, 80, 15⟩]
       else
        (if c1 then [(⟨0, h - 50, w, 50⟩ : Platform)] ++ [⟨220, h - 200, 85, 15⟩]
         else [⟨0, h - 50, w, 50⟩])) := by
  have shf1 : plat_shape 65 95 15 (h - 125) ⟨220, h - 200, 85, 15⟩ :=
    ⟨by norm_num, by norm_num, rfl, by dsimp only; omega⟩
  have shf2 : plat_shape 65 95 15 (h - 125) ⟨450, h - 280, 80, 15⟩ :=
    ⟨by norm_num, by norm_num, rfl, by dsimp only; omega⟩
  have hgf1 : ¬ rects_properly_overlap ⟨0, h - 50, w, 50⟩ ⟨220, h - 200, 85, 15⟩ :=
    not_overlap_of_y_gap (by dsimp only; omega)
  have hgf2 : ¬ rects_properly_overlap ⟨0, h - 50, w, 50⟩ ⟨450, h - 280, 80, 15⟩ :=
    not_overlap_of_y_gap (by dsimp only; omega)
  have hf12 : ¬ rects_properly_overlap ⟨220, h - 200, 85, 15⟩ ⟨450, h - 280, 80, 15⟩ :=
    not_overlap_of_x_gap (by dsimp only; omega)
  split_ifs with hc2 hc1 hc1
  · refine ⟨[⟨220, h - 200, 85, 15⟩, ⟨450, h - 280, 80, 15⟩], rfl, ?_, ?_⟩
    · intro p hp
      rcases List.mem_cons.mp hp with hp | hp
      · rw [hp]; exact shf1
      · rw [List.mem_singleton.mp hp]; exact shf2
    · rw [platforms_disjoint]
      refine List.Pairwise.cons ?_ (List.Pairwise.cons ?_ (List.pairwise_singleton _ _))
      · intro q hq
        rcases List.mem_cons.mp hq with hq | hq
        · rw [hq]; exact hgf1
        · rw [List.mem_singleton.mp hq]; exact hgf2
      · intro q hq
        rw [List.mem_singleton.mp hq]; exact hf12
  · refine ⟨[⟨450, h - 280, 80, 15⟩], rfl, ?_, ?_⟩
    · intro p hp
      rw [List.mem_singleton.mp hp]; exact shf2
    · rw [platforms_disjoint]
      exact List.Pairwise.cons
        (fun q hq => by rw [List.mem_singleton.mp hq]; exact hgf2)
        (List.pairwise_singleton _ _)
  · refine ⟨[⟨220, h - 200, 85, 15⟩], rfl, ?_, ?_⟩
    · intro p hp
      rw [List.mem_singleton.mp hp]; exact shf1
    · rw [platforms_disjoint]
      exact List.Pairwise.cons
        (fun q hq => by rw [List.mem_singleton.mp hq]; exact hgf1)
        (List.pairwise_singleton _ _)
  · exact ⟨[], rfl, by simp, by rw [platforms_disjoint]; exact List.pairwise_singleton _ _⟩

theorem ice_generate_platforms_inv {w h : Int} {cps : List Checkpoint}
    {s s' : Rng} {plats : List Platform}
    (hok : ice_generate_platforms w h cps s = .ok (plats, s')) :
    plats_inv w h 65 95 15 (h - 125) plats := by
  rw [ice_generate_platforms] at hok
  dsimp only at hok
  obtain ⟨p1, hseg, hplats⟩ := genm_bind_pure_ok hok
  have hp1 : plats_inv w h 65 95 15 (h - 125) p1 :=
    ice_segments_inv h cps 700 ((w - 400 - 700).ediv 8) 8 0 _ s p1 s' hseg
      (ice_start_inv w h _ _)
  rw [hplats]
  exact plats_inv_final_if (c := ⟨w - 380, h - 210, 95, 15⟩) hp1
    ⟨by norm_num, by norm_num, rfl, by dsimp only; omega⟩
    (by norm_num) (by norm_num) (by norm_num) (by omega)

/-- C3: CONFIRMED.  For every blueprint any of the three biome generators
returns, no two platforms of its list properly overlap (touching edges do
not count as overlapping): the ground platform, the hand-placed start
platforms and the per-segment / high platforms are separated by the
explicit `rectangles_overlap` filter, and the final platforms — filtered
only by the spacing rule — are separated from the ground by their height
band and from every other platform because the spacing band (200/220/270)
exceeds every platform width of the respective biome (≤ 180/140/95). -/
theorem C3_platforms_disjoint :
    (∀ (w h : Int) (s s' : Rng) (bp : Blueprint),
      generate_world grassGen w h s = .ok (bp, s') →
      platforms_disjoint bp.platforms) ∧
    (∀ (w h : Int) (s s' : Rng) (bp : Blueprint),
      generate_world desertGen w h s = .ok (bp, s') →
      platforms_disjoint bp.platforms) ∧
    (∀ (w h : Int) (s s' : Rng) (bp : Blueprint),
      generate_world iceGen w h s = .ok (bp, s') →
      platforms_disjoint bp.platforms) := by
  refine ⟨?_, ?_, ?_⟩
  · intro w h s s' bp hok
    obtain ⟨plats, s1, spikes, s2, enemies, s3, pows, s4, h1, -, -, -, h5⟩ :=
      grass_ok_shape hok
    obtain ⟨rest, -, -, hdisj⟩ := grass_generate_platforms_inv h1
    rw [h5]
    exact hdisj
  · intro w h s s' bp hok
    obtain ⟨plats, s1, spikes, s2, enemies, s3, pows, s4, h1, -, -, -, h5⟩ :=
      desert_ok_shape hok
    obtain ⟨rest, -, -, hdisj⟩ := desert_generate_platforms_inv h1
    rw [h5]
    exact hdisj
  · intro w h s s' bp hok
    obtain ⟨plats, s1, spikes, s2, enemies, s3, pows, s4, h1, -, -, -, h5⟩ :=
      ice_ok_shape hok
    obtain ⟨rest, -, -, hdisj⟩ := ice_generate_platforms_inv h1
    rw [h5]
    exact hdisj

/-- C3 witness: the disjointness theorem applied to the three concrete runs
at width 1400, height 600. -/
theorem C3_witness :
    platforms_disjoint grassBp1400.platforms ∧
    platforms_disjoint desertBp1400.platforms ∧
    platforms_disjoint iceBp1400.platforms :=
  ⟨C3_platforms_disjoint.1 1400 600 ⟨0, listStream grassDraws1400⟩
      ⟨33, listStream grassDraws1400⟩ grassBp1400 grassRun1400_eq,
   C3_platforms_disjoint.2.1 1400 600 ⟨0, listStream desertDraws1400⟩
      ⟨93, listStream desertDraws1400⟩ desertBp1400 desertRun1400_eq,
   C3_platforms_disjoint.2.2 1400 600 ⟨0, listStream iceDraws1400⟩
      ⟨45, listStream iceDraws1400⟩ iceBp1400 iceRun1400_eq⟩

theorem is_on_surface_ground (x k : Int) (plats : List Platform) (gy : Int) :
    is_on_surface x (gy - k) k plats gy = true := by
  rw [is_on_surface]
  have h0 : gy - k + k - gy = (0 : Int) := by ring
  rw [h0]
  norm_num

theorem is_on_surface_platform {x y k : Int} {plats : List Platform}
    {gy : Int} {p : Platform} (hp : p ∈ plats) (hb : y + k = p.y)
    (hx1 : p.x ≤ x) (hx2 : x ≤ p.x + p.width) :
    is_on_surface x y k plats gy = true := by
  rw [is_on_surface]
  split
  · rfl
  · rw [List.any_eq_true]
    refine ⟨p, hp, ?_⟩
    simp only [Bool.and_eq_true, decide_eq_true_eq, ge_iff_le]
    rw [hb]
    simp only [sub_self, abs_zero]
    exact ⟨⟨by norm_num, hx1⟩, hx2⟩

theorem grass_spike_attempts_supported (h : Int) (plats : List Platform)
    (cps : List Checkpoint) (zone_start zone_end : Int) :
    ∀ (fuel : Nat) (acc : List Spike) (s : Rng) (res : List Spike) (s' : Rng),
      grass_spike_attempts h plats cps zone_start zone_end fuel acc s
        = .ok (res, s') →
      (∀ k ∈ acc, spike_supported plats h k) →
      ∀ k ∈ res, spike_supported plats h k := by
  intro fuel
  induction fuel with
  | zero =>
    intro acc s res s' hok hacc
    simp only [grass_spike_attempts, genm_pure_apply, Except.ok.injEq,
      Prod.mk.injEq] at hok
    rw [← hok.1]; exact hacc
  | succ fuel ih =>
    intro acc s res s' hok hacc
    rw [grass_spike_attempts] at hok
    obtain ⟨x, s1, hx, hok⟩ := genm_bind_ok hok
    dsimp only at hok
    split at hok
    case isTrue => exact ih acc s1 res s' hok hacc
    case isFalse =>
      split at hok
      case isTrue => exact ih acc s1 res s' hok hacc
      case isFalse =>
        split at hok
        case isTrue => exact ih acc s1 res s' hok hacc
        case isFalse =>
          simp only [genm_pure_apply, Except.ok.injEq, Prod.mk.injEq] at hok
          rw [← hok.1]
          intro k hk
          rcases List.mem_append.mp hk with hk | hk
          · exact hacc k hk
          · rw [List.mem_singleton.mp hk]
            exact is_on_surface_ground x 30 plats (h - 50)

theorem grass_spike_zones_supported (h : Int) (plats : List Platform)
    (cps : List Checkpoint) (start_generation zone_width : Int) :
    ∀ (remaining zone : Nat) (acc : List Spike) (s : Rng)
      (res : List Spike) (s' : Rng),
      grass_spike_zones h plats cps start_generation zone_width zone remaining acc s
        = .ok (res, s') →
      (∀ k ∈ acc, spike_supported plats h k) →
      ∀ k ∈ res, spike_supported plats h k := by
  intro remaining
  induction remaining with
  | zero =>
    intro zone acc s res s' hok hacc
    simp only [grass_spike_zones, genm_pure_apply, Except.ok.injEq,
      Prod.mk.injEq] at hok
    rw [← hok.1]; exact hacc
  | succ remaining ih =>
    intro zone acc s res s' hok hacc
    rw [grass_spike_zones] at hok
    obtain ⟨roll, s1, hr, hok⟩ := genm_bind_ok hok
    dsimp only at hok
    split at hok
    case isTrue =>
      obtain ⟨acc', s2, ha, hok⟩ := genm_bind_ok hok
      exact ih (zone + 1) acc' s2 res s' hok
        (grass_spike_attempts_supported h plats cps _ _ 5 acc s1 acc' s2 ha hacc)
    case isFalse =>
      obtain ⟨acc', s2, ha, hok⟩ := genm_bind_ok hok
      rw [genm_pure_apply] at ha
      simp only [Except.ok.injEq, Prod.mk.injEq] at ha
      refine ih (zone + 1) acc' s2 res s' hok ?_
      rw [← ha.1]; exact hacc

theorem grass_danger_inner_supported (h : Int) (plats : List Platform)
    (cps : List Checkpoint) (zone_start : Int) :
    ∀ (iter : Nat) (added : Int) (acc : List Spike),
      (∀ k ∈ acc, spike_supported plats h k) →
      ∀ k ∈ grass_danger_inner h plats cps zone_start iter added acc,
        spike_supported plats h k := by
  intro iter
  induction iter with
  | zero =>
    intro added acc hacc
    simpa only [grass_danger_inner] using hacc
  | succ iter ih =>
    intro added acc hacc
    rw [grass_danger_inner]
    split
    case isTrue => exact ih added acc hacc
    case isFalse =>
      split
      case isTrue => exact ih added acc hacc
      case isFalse =>
        split
        case isTrue => exact ih added acc hacc
        case isFalse =>
          refine ih (added + 1) _ ?_
          intro k hk
          rcases List.mem_append.mp hk with hk | hk
          · exact hacc k hk
          · rw [List.mem_singleton.mp hk]
            exact is_on_surface_ground _ 32 plats (h - 50)

theorem grass_danger_zone_supported (h : Int) (plats : List Platform)
    (cps : List Checkpoint) (start_generation zone_width : Int) (dz : Nat)
    (acc : List Spike) (hacc : ∀ k ∈ acc, spike_supported plats h k) :
    ∀ k ∈ grass_danger_zone h plats cps start_generation zone_width dz acc,
      spike_supported plats h k := by
  rw [grass_danger_zone]
  split
  · exact hacc
  · exact grass_danger_inner_supported h plats cps _ 2 0 acc hacc

theorem grass_danger_foldl_supported (h : Int) (plats : List Platform)
    (cps : List Checkpoint) (start_generation zone_width : Int) :
    ∀ (zones : List Nat) (acc : List Spike),
      (∀ k ∈ acc, spike_supported plats h k) →
      ∀ k ∈ zones.foldl
          (fun a dz => grass_danger_zone h plats cps start_generation zone_width dz a)
          acc,
        spike_supported plats h k := by
  intro zones
  induction zones with
  | nil => intro acc hacc; simpa using hacc
  | cons z rest ih =>
    intro acc hacc
    rw [List.foldl_cons]
    exact ih _ (grass_danger_zone_supported h plats cps _ _ z acc hacc)

theorem grass_platform_spikes_supported (h : Int) (plats : List Platform) :
    ∀ (sel : List Platform) (acc : List Spike),
      (∀ p ∈ sel, p ∈ plats ∧ 40 ≤ p.width) →
      (∀ k ∈ acc, spike_supported plats h k) →
      ∀ k ∈ grass_platform_spikes plats sel acc, spike_supported plats h k := by
  intro sel
  induction sel with
  | nil => intro acc hsel hacc; simpa only [grass_platform_spikes] using hacc
  | cons p rest ih =>
    intro acc hsel hacc
    rw [grass_platform_spikes]
    split
    · exact ih acc (fun q hq => hsel q (List.mem_cons_of_mem _ hq)) hacc
    · refine ih _ (fun q hq => hsel q (List.mem_cons_of_mem _ hq)) ?_
      intro k hk
      rcases List.mem_append.mp hk with hk | hk
      · exact hacc k hk
      · rw [List.mem_singleton.mp hk]
        obtain ⟨hp, hpw⟩ := hsel p (List.mem_cons_self _ _)
        refine is_on_surface_platform hp (by dsimp only; ring) ?_ ?_
        all_goals
          dsimp only
          have hdm : 2 * p.width.ediv 2 + p.width.emod 2 = p.width :=
            Int.ediv_add_emod p.width 2
          have hm1 : 0 ≤ p.width.emod 2 := Int.emod_nonneg _ (by norm_num)
          have hm2 : p.width.emod 2 < 2 := Int.emod_lt_of_pos _ (by norm_num)
          omega

theorem grass_generate_hazards_supported {w h : Int} {plats : List Platform}
    {cps : List Checkpoint} {s s' : Rng} {spikes : List Spike}
    (hok : grass_generate_hazards w h plats cps s = .ok (spikes, s'))
    (hwidth : ∀ p ∈ plats, p.y < h - 100 → 40 ≤ p.width) :
    ∀ k ∈ spikes, spike_supported plats h k := by
  rw [grass_generate_hazards] at hok
  dsimp only at hok
  obtain ⟨sp1, s1, hz, hok⟩ := genm_bind_ok hok
  obtain ⟨dz, s2, hdz, hok⟩ := genm_bind_ok hok
  obtain ⟨n0, s3, hn0, hok⟩ := genm_bind_ok hok
  obtain ⟨sel, s4, hsel, hok⟩ := genm_bind_ok hok
  rw [genm_pure_apply] at hok
  simp only [Except.ok.injEq, Prod.mk.injEq] at hok
  rw [← hok.1]
  have hsub := sampleList_ok_subset hsel
  refine grass_platform_spikes_supported h plats sel _ ?_ ?_
  · intro p hp
    have hmem := hsub hp
    rw [List.mem_filter] at hmem
    obtain ⟨hmem, hcond⟩ := hmem
    simp only [Bool.and_eq_true, decide_eq_true_eq] at hcond
    exact ⟨hmem, hwidth p hmem hcond.1⟩
  · exact grass_danger_foldl_supported h plats cps _ _ dz sp1
      (grass_spike_zones_supported h plats cps _ _ 10 0 [] s sp1 s1 hz
        (by simp))

theorem desert_spike_attempts_supported (h : Int) (plats : List Platform)
    (cps : List Checkpoint) (zone_start zone_end : Int) :
    ∀ (fuel : Nat) (acc : List Spike) (s : Rng) (res : List Spike) (s' : Rng),
      desert_spike_attempts h plats cps zone_start zone_end fuel acc s
        = .ok (res, s') →
      (∀ k ∈ acc, spike_supported plats h k) →
      ∀ k ∈ res, spike_supported plats h k := by
  intro fuel
  induction fuel with
  | zero =>
    intro acc s res s' hok hacc
    simp only [desert_spike_attempts, genm_pure_apply, Except.ok.injEq,
      Prod.mk.injEq] at hok
    rw [← hok.1]; exact hacc
  | succ fuel ih =>
    intro acc s res s' hok hacc
    rw [desert_spike_attempts] at hok
    obtain ⟨x, s1, hx, hok⟩ := genm_bind_ok hok
    dsimp only at hok
    split at hok
    case isTrue => exact ih acc s1 res s' hok hacc
    case isFalse =>
      split at hok
      case isTrue => exact ih acc s1 res s' hok hacc
      case isFalse =>
        split at hok
        case isTrue => exact ih acc s1 res s' hok hacc
        case isFalse =>
          simp only [genm_pure_apply, Except.ok.injEq, Prod.mk.injEq] at hok
          rw [← hok.1]
          intro k hk
          rcases List.mem_append.mp hk with hk | hk
          · exact hacc k hk
          · rw [List.mem_singleton.mp hk]
            exact is_on_surface_ground x 32 plats (h - 50)

theorem desert_spike_zones_supported (h : Int) (plats : List Platform)
    (cps : List Checkpoint) (start_generation zone_width : Int) :
    ∀ (remaining zone : Nat) (acc : List Spike) (s : Rng)
      (res : List Spike) (s' : Rng),
      desert_spike_zones h plats cps start_generation zone_width zone remaining acc s
        = .ok (res, s') →
      (∀ k ∈ acc, spike_supported plats h k) →
      ∀ k ∈ res, spike_supported plats h k := by
  intro remaining
  induction remaining with
  | zero =>
    intro zone acc s res s' hok hacc
    simp only [desert_spike_zones, genm_pure_apply, Except.ok.injEq,
      Prod.mk.injEq] at hok
    rw [← hok.1]; exact hacc
  | succ remaining ih =>
    intro zone acc s res s' hok hacc
    rw [desert_spike_zones] at hok
    obtain ⟨roll, s1, hr, hok⟩ := genm_bind_ok hok
    dsimp only at hok
    split at hok
    case isTrue =>
      obtain ⟨acc', s2, ha, hok⟩ := genm_bind_ok hok
      exact ih (zone + 1) acc' s2 res s' hok
        (desert_spike_attempts_supported h plats cps _ _ 8 acc s1 acc' s2 ha hacc)
    case isFalse =>
      obtain ⟨acc', s2, ha, hok⟩ := genm_bind_ok hok
      rw [genm_pure_apply] at ha
      simp only [Except.ok.injEq, Prod.mk.injEq] at ha
      refine ih (zone + 1) acc' s2 res s' hok ?_
      rw [← ha.1]; exact hacc

theorem desert_danger_inner_supported (h : Int) (plats : List Platform)
    (cps : List Checkpoint) (zone_start : Int) :
    ∀ (iter : Nat) (added : Int) (acc : List Spike),
      (∀ k ∈ acc, spike_supported plats h k) →
      ∀ k ∈ desert_danger_inner h plats cps zone_start iter added acc,
        spike_supported plats h k := by
  intro iter
  induction iter with
  | zero =>
    intro added acc hacc
    simpa only [desert_danger_inner] using hacc
  | succ iter ih =>
    intro added acc hacc
    rw [desert_danger_inner]
    split
    case isTrue => exact ih added acc hacc
    case isFalse =>
      split
      case isTrue => exact ih added acc hacc
      case isFalse =>
        split
        case isTrue => exact ih added acc hacc
        case isFalse =>
          refine ih (added + 1) _ ?_
          intro k hk
          rcases List.mem_append.mp hk with hk | hk
          · exact hacc k hk
          · rw [List.mem_singleton.mp hk]
            exact is_on_surface_ground _ 35 plats (h - 50)

theorem desert_danger_zone_supported (h : Int) (plats : List Platform)
    (cps : List Checkpoint) (start_generation zone_width : Int) (dz : Nat)
    (acc : List Spike) (hacc : ∀ k ∈ acc, spike_supported plats h k) :
    ∀ k ∈ desert_danger_zone h plats cps start_generation zone_width dz acc,
      spike_supported plats h k := by
  rw [desert_danger_zone]
  split
  · exact hacc
  · exact desert_danger_inner_supported h plats cps _ 2 0 acc hacc

theorem desert_danger_stage_supported {h : Int} {plats : List Platform}
    {cps : List Checkpoint} {start_generation zone_width : Int}
    {acc : List Spike} {s : Rng} {res : List Spike} {s' : Rng}
    (hok : desert_danger_stage h plats cps start_generation zone_width acc s
      = .ok (res, s'))
    (hacc : ∀ k ∈ acc, spike_supported plats h k) :
    ∀ k ∈ res, spike_supported plats h k := by
  rw [desert_danger_stage] at hok
  obtain ⟨dz, hdz, hres⟩ := genm_bind_pure_ok hok
  rw [hres]
  have : ∀ (zones : List Nat) (a : List Spike),
      (∀ k ∈ a, spike_supported plats h k) →
      ∀ k ∈ zones.foldl
          (fun a dz => desert_danger_zone h plats cps start_generation zone_width dz a)
          a,
        spike_supported plats h k := by
    intro zones
    induction zones with
    | nil => intro a ha; simpa using ha
    | cons z rest ih =>
      intro a ha
      rw [List.foldl_cons]
      exact ih _ (desert_danger_zone_supported h plats cps _ _ z a ha)
  exact this dz acc hacc

theorem desert_platform_spike_attempts_supported (h : Int)
    (plats : List Platform) (p : Platform) (hp : p ∈ plats) :
    ∀ (fuel : Nat) (acc : List Spike) (s : Rng) (res : List Spike) (s' : Rng),
      desert_platform_spike_attempts p fuel acc s = .ok (res, s') →
      (∀ k ∈ acc, spike_supported plats h k) →
      ∀ k ∈ res, spike_supported plats h k := by
  intro fuel
  induction fuel with
  | zero =>
    intro acc s res s' hok hacc
    simp only [desert_platform_spike_attempts, genm_pure_apply, Except.ok.injEq,
      Prod.mk.injEq] at hok
    rw [← hok.1]; exact hacc
  | succ fuel ih =>
    intro acc s res s' hok hacc
    rw [desert_platform_spike_attempts] at hok
    dsimp only at hok
    split at hok
    case isTrue =>
      simp only [genm_pure_apply, Except.ok.injEq, Prod.mk.injEq] at hok
      rw [← hok.1]; exact hacc
    case isFalse =>
      obtain ⟨off, s1, hoff, hok⟩ := genm_bind_ok hok
      split at hok
      case isTrue => exact ih acc s1 res s' hok hacc
      case isFalse =>
        split at hok
        case isTrue => exact ih acc s1 res s' hok hacc
        case isFalse hspan =>
          split at hok
          case isTrue => exact ih acc s1 res s' hok hacc
          case isFalse =>
            simp only [genm_pure_apply, Except.ok.injEq, Prod.mk.injEq] at hok
            rw [← hok.1]
            intro k hk
            rcases List.mem_append.mp hk with hk | hk
            · exact hacc k hk
            · rw [List.mem_singleton.mp hk]
              simp only [Bool.or_eq_true, decide_eq_true_eq, not_or,
                not_lt] at hspan
              obtain ⟨hs1, hs2⟩ := hspan
              exact is_on_surface_platform hp (by dsimp only; ring)
                (by dsimp only; omega) (by dsimp only; omega)

theorem desert_platform_spikes_supported (h : Int) (plats : List Platform) :
    ∀ (sel : List Platform) (acc : List Spike) (s : Rng)
      (res : List Spike) (s' : Rng),
      desert_platform_spikes sel acc s = .ok (res, s') →
      (∀ p ∈ sel, p ∈ plats) →
      (∀ k ∈ acc, spike_supported plats h k) →
      ∀ k ∈ res, spike_supported plats h k := by
  intro sel
  induction sel with
  | nil =>
    intro acc s res s' hok hsel hacc
    simp only [desert_platform_spikes, genm_pure_apply, Except.ok.injEq,
      Prod.mk.injEq] at hok
    rw [← hok.1]; exact hacc
  | cons p rest ih =>
    intro acc s res s' hok hsel hacc
    rw [desert_platform_spikes] at hok
    obtain ⟨acc', s1, ha, hok⟩ := genm_bind_ok hok
    exact ih acc' s1 res s' hok
      (fun q hq => hsel q (List.mem_cons_of_mem _ hq))
      (desert_platform_spike_attempts_supported h plats p
        (hsel p (List.mem_cons_self _ _)) 5 acc s acc' s1 ha hacc)

theorem desert_platform_spikes_stage_supported {h : Int}
    {plats : List Platform} {cps : List Checkpoint} {acc : List Spike}
    {s : Rng} {res : List Spike} {s' : Rng}
    (hok : desert_platform_spikes_stage h plats cps acc s = .ok (res, s'))
    (hacc : ∀ k ∈ acc, spike_supported plats h k) :
    ∀ k ∈ res, spike_supported plats h k := by
  rw [desert_platform_spikes_stage] at hok
  dsimp only at hok
  obtain ⟨n0, s1, hn0, hok⟩ := genm_bind_ok hok
  obtain ⟨sel, s2, hsel, hok⟩ := genm_bind_ok hok
  refine desert_platform_spikes_supported h plats sel acc s2 res s' hok ?_ hacc
  intro p hp
  have hmem := sampleList_ok_subset hsel hp
  rw [List.mem_filter] at hmem
  exact hmem.1

theorem desert_generate_hazards_supported {w h : Int} {plats : List Platform}
    {cps : List Checkpoint} {s s' : Rng} {spikes : List Spike}
    (hok : desert_generate_hazards w h plats cps s = .ok (spikes, s')) :
    ∀ k ∈ spikes, spike_supported plats h k := by
  rw [desert_generate_hazards] at hok
  obtain ⟨sp1, s1, hz, hok⟩ := genm_bind_ok hok
  obtain ⟨sp2, s2, hd, hok⟩ := genm_bind_ok hok
  exact desert_platform_spikes_stage_supported hok
    (desert_danger_stage_supported hd
      (desert_spike_zones_supported h plats cps _ _ 12 0 [] s sp1 s1 hz
        (by simp)))

theorem ice_spike_attempts_supported (h : Int) (plats : List Platform)
    (cps : List Checkpoint) (zone_start zone_end : Int) :
    ∀ (fuel : Nat) (acc : List Spike) (s : Rng) (res : List Spike) (s' : Rng),
      ice_spike_attempts h plats cps zone_start zone_end fuel acc s
        = .ok (res, s') →
      (∀ k ∈ acc, spike_supported plats h k) →
      ∀ k ∈ res, spike_supported plats h k := by
  intro fuel
  induction fuel with
  | zero =>
    intro acc s res s' hok hacc
    simp only [ice_spike_attempts, genm_pure_apply, Except.ok.injEq,
      Prod.mk.injEq] at hok
    rw [← hok.1]; exact hacc
  | succ fuel ih =>
    intro acc s res s' hok hacc
    rw [ice_spike_attempts] at hok
    obtain ⟨x, s1, hx, hok⟩ := genm_bind_ok hok
    dsimp only at hok
    split at hok
    case isTrue => exact ih acc s1 res s' hok hacc
    case isFalse =>
      split at hok
      case isTrue => exact ih acc s1 res s' hok hacc
      case isFalse =>
        split at hok
        case isTrue => exact ih acc s1 res s' hok hacc
        case isFalse =>
          simp only [genm_pure_apply, Except.ok.injEq, Prod.mk.injEq] at hok
          rw [← hok.1]
          intro k hk
          rcases List.mem_append.mp hk with hk | hk
          · exact hacc k hk
          · rw [List.mem_singleton.mp hk]
            exact is_on_surface_ground x 35 plats (h - 50)

theorem ice_spike_zones_supported (h : Int) (plats : List Platform)
    (cps : List Checkpoint) (start_generation zone_width : Int) :
    ∀ (remaining zone : Nat) (acc : List Spike) (s : Rng)
      (res : List Spike) (s' : Rng),
      ice_spike_zones h plats cps start_generation zone_width zone remaining acc s
        = .ok (res, s') →
      (∀ k ∈ acc, spike_supported plats h k) →
      ∀ k ∈ res, spike_supported plats h k := by
  intro remaining
  induction remaining with
  | zero =>
    intro zone acc s res s' hok hacc
    simp only [ice_spike_zones, genm_pure_apply, Except.ok.injEq,
      Prod.mk.injEq] at hok
    rw [← hok.1]; exact hacc
  | succ remaining ih =>
    intro zone acc s res s' hok hacc
    rw [ice_spike_zones] at hok
    obtain ⟨roll, s1, hr, hok⟩ := genm_bind_ok hok
    dsimp only at hok
    split at hok
    case isTrue =>
      obtain ⟨acc', s2, ha, hok⟩ := genm_bind_ok hok
      exact ih (zone + 1) acc' s2 res s' hok
        (ice_spike_attempts_supported h plats cps _ _ 10 acc s1 acc' s2 ha hacc)
    case isFalse =>
      obtain ⟨acc', s2, ha, hok⟩ := genm_bind_ok hok
      rw [genm_pure_apply] at ha
      simp only [Except.ok.injEq, Prod.mk.injEq] at ha
      refine ih (zone + 1) acc' s2 res s' hok ?_
      rw [← ha.1]; exact hacc

theorem ice_danger_inner_supported (h : Int) (plats : List Platform)
    (cps : List Checkpoint) (zone_start : Int) :
    ∀ (iter : Nat) (added : Int) (acc : List Spike),
      (∀ k ∈ acc, spike_supported plats h k) →
      ∀ k ∈ ice_danger_inner h plats cps zone_start iter added acc,
        spike_supported plats h k := by
  intro iter
  induction iter with
  | zero =>
    intro added acc hacc
    simpa only [ice_danger_inner] using hacc
  | succ iter ih =>
    intro added acc hacc
    rw [ice_danger_inner]
    split
    case isTrue => exact ih added acc hacc
    case isFalse =>
      split
      case isTrue => exact ih added acc hacc
      case isFalse =>
        split
        case isTrue => exact ih added acc hacc
        case isFalse =>
          refine ih (added + 1) _ ?_
          intro k hk
          rcases List.mem_append.mp hk with hk | hk
          · exact hacc k hk
          · rw [List.mem_singleton.mp hk]
            exact is_on_surface_ground _ 35 plats (h - 50)

theorem ice_danger_zone_supported (h : Int) (plats : List Platform)
    (cps : List Checkpoint) (start_generation zone_width : Int) (dz : Nat)
    (acc : List Spike) (hacc : ∀ k ∈ acc, spike_supported plats h k) :
    ∀ k ∈ ice_danger_zone h plats cps start_generation zone_width dz acc,
      spike_supported plats h k := by
  rw [ice_danger_zone]
  split
  · exact hacc
  · exact ice_danger_inner_supported h plats cps _ 2 0 acc hacc

theorem ice_danger_stage_supported {h : Int} {plats : List Platform}
    {cps : List Checkpoint} {start_generation zone_width : Int}
    {acc : List Spike} {s : Rng} {res : List Spike} {s' : Rng}
    (hok : ice_danger_stage h plats cps start_generation zone_width acc s
      = .ok (res, s'))
    (hacc : ∀ k ∈ acc, spike_supported plats h k) :
    ∀ k ∈ res, spike_supported plats h k := by
  rw [ice_danger_stage] at hok
  obtain ⟨dz, hdz, hres⟩ := genm_bind_pure_ok hok
  rw [hres]
  have : ∀ (zones : List Nat) (a : List Spike),
      (∀ k ∈ a, spike_supported plats h k) →
      ∀ k ∈ zones.foldl
          (fun a dz => ice_danger_zone h plats cps start_generation zone_width dz a)
          a,
        spike_supported plats h k := by
    intro zones
    induction zones with
    | nil => intro a ha; simpa using ha
    | cons z rest ih =>
      intro a ha
      rw [List.foldl_cons]
      exact ih _ (ice_danger_zone_supported h plats cps _ _ z a ha)
  exact this dz acc hacc

theorem ice_platform_spike_attempts_supported (h : Int)
    (plats : List Platform) (p : Platform) (hp : p ∈ plats) :
    ∀ (fuel : Nat) (acc : List Spike) (s : Rng) (res : List Spike) (s' : Rng),
      ice_platform_spike_attempts p fuel acc s = .ok (res, s') →
      (∀ k ∈ acc, spike_supported plats h k) →
      ∀ k ∈ res, spike_supported plats h k := by
  intro fuel
  induction fuel with
  | zero =>
    intro acc s res s' hok hacc
    simp only [ice_platform_spike_attempts, genm_pure_apply, Except.ok.injEq,
      Prod.mk.injEq] at hok
    rw [← hok.1]; exact hacc
  | succ fuel ih =>
    intro acc s res s' hok hacc
    rw [ice_platform_spike_attempts] at hok
    dsimp only at hok
    split at hok
    case isTrue =>
      simp only [genm_pure_apply, Except.ok.injEq, Prod.mk.injEq] at hok
      rw [← hok.1]; exact hacc
    case isFalse =>
      obtain ⟨off, s1, hoff, hok⟩ := genm_bind_ok hok
      split at hok
      case isTrue => exact ih acc s1 res s' hok hacc
      case isFalse =>
        split at hok
        case isTrue => exact ih acc s1 res s' hok hacc
        case isFalse hspan =>
          split at hok
          case isTrue => exact ih acc s1 res s' hok hacc
          case isFalse =>
            simp only [genm_pure_apply, Except.ok.injEq, Prod.mk.injEq] at hok
            rw [← hok.1]
            intro k hk
            rcases List.mem_append.mp hk with hk | hk
            · exact hacc k hk
            · rw [List.mem_singleton.mp hk]
              simp only [Bool.or_eq_true, decide_eq_true_eq, not_or,
                not_lt] at hspan
              obtain ⟨hs1, hs2⟩ := hspan
              exact is_on_surface_platform hp (by dsimp only; ring)
                (by dsimp only; omega) (by dsimp only; omega)

theorem ice_platform_spikes_supported (h : Int) (plats : List Platform) :
    ∀ (sel : List Platform) (acc : List Spike) (s : Rng)
      (res : List Spike) (s' : Rng),
      ice_platform_spikes sel acc s = .ok (res, s') →
      (∀ p ∈ sel, p ∈ plats) →
      (∀ k ∈ acc, spike_supported plats h k) →
      ∀ k ∈ res, spike_supported plats h k := by
  intro sel
  induction sel with
  | nil =>
    intro acc s res s' hok hsel hacc
    simp only [ice_platform_spikes, genm_pure_apply, Except.ok.injEq,
      Prod.mk.injEq] at hok
    rw [← hok.1]; exact hacc
  | cons p rest ih =>
    intro acc s res s' hok hsel hacc
    rw [ice_platform_spikes] at hok
    obtain ⟨acc', s1, ha, hok⟩ := genm_bind_ok hok
    exact ih acc' s1 res s' hok
      (fun q hq => hsel q (List.mem_cons_of_mem _ hq))
      (ice_platform_spike_attempts_supported h plats p
        (hsel p (List.mem_cons_self _ _)) 5 acc s acc' s1 ha hacc)

theorem ice_platform_spikes_stage_supported {h : Int}
    {plats : List Platform} {cps : List Checkpoint} {acc : List Spike}
    {s : Rng} {res : List Spike} {s' : Rng}
    (hok : ice_platform_spikes_stage h plats cps acc s = .ok (res, s'))
    (hacc : ∀ k ∈ acc, spike_supported plats h k) :
    ∀ k ∈ res, spike_supported plats h k := by
  rw [ice_platform_spikes_stage] at hok
  dsimp only at hok
  obtain ⟨n0, s1, hn0, hok⟩ := genm_bind_ok hok
  obtain ⟨sel, s2, hsel, hok⟩ := genm_bind_ok hok
  refine ice_platform_spikes_supported h plats sel acc s2 res s' hok ?_ hacc
  intro p hp
  have hmem := sampleList_ok_subset hsel hp
  rw [List.mem_filter] at hmem
  exact hmem.1

theorem ice_generate_hazards_supported {w h : Int} {plats : List Platform}
    {cps : List Checkpoint} {s s' : Rng} {spikes : List Spike}
    (hok : ice_generate_hazards w h plats cps s = .ok (spikes, s')) :
    ∀ k ∈ spikes, spike_supported plats h k := by
  rw [ice_generate_hazards] at hok
  obtain ⟨sp1, s1, hz, hok⟩ := genm_bind_ok hok
  obtain ⟨sp2, s2, hd, hok⟩ := genm_bind_ok hok
  exact ice_platform_spikes_stage_supported hok
    (ice_danger_stage_supported hd
      (ice_spike_zones_supported h plats cps _ _ 16 0 [] s sp1 s1 hz
        (by simp)))

/-- C4: CONFIRMED.  In every blueprint of the three biome generators,
every spike rests on a surface: `is_on_surface(k.x, k.y, k.height,
platforms, height - 50)` holds for every spike `k`.  Ground and
danger-zone spikes sit flush on the ground by construction; desert and ice
platform-top spikes pass explicit alignment and span checks against their
platform; grass platform-top spikes perform no such check, but every
eligible grass platform is at least 120 wide, so the centred spike always
lies within its platform's span. -/
theorem C4_hazards_supported :
    (∀ (w h : Int) (s s' : Rng) (bp : Blueprint),
      generate_world grassGen w h s = .ok (bp, s') →
      ∀ k ∈ bp.spikes, spike_supported bp.platforms h k) ∧
    (∀ (w h : Int) (s s' : Rng) (bp : Blueprint),
      generate_world desertGen w h s = .ok (bp, s') →
      ∀ k ∈ bp.spikes, spike_supported bp.platforms h k) ∧
    (∀ (w h : Int) (s s' : Rng) (bp : Blueprint),
      generate_world iceGen w h s = .ok (bp, s') →
      ∀ k ∈ bp.spikes, spike_supported bp.platforms h k) := by
  refine ⟨?_, ?_, ?_⟩
  · intro w h s s' bp hok
    obtain ⟨plats, s1, spikes, s2, enemies, s3, pows, s4, h1, h2, -, -, h5⟩ :=
      grass_ok_shape hok
    rw [h5]
    obtain ⟨rest, hl, hshapes, -⟩ := grass_generate_platforms_inv h1
    refine grass_generate_hazards_supported h2 ?_
    intro p hp hy
    rw [hl] at hp
    rcases List.mem_cons.mp hp with hp | hp
    · rw [hp] at hy; dsimp only at hy; omega
    · obtain ⟨hw1, -, -, -⟩ := hshapes p hp
      omega
  · intro w h s s' bp hok
    obtain ⟨plats, s1, spikes, s2, enemies, s3, pows, s4, h1, h2, -, -, h5⟩ :=
      desert_ok_shape hok
    rw [h5]
    exact desert_generate_hazards_supported h2
  · intro w h s s' bp hok
    obtain ⟨plats, s1, spikes, s2, enemies, s3, pows, s4, h1, h2, -, -, h5⟩ :=
      ice_ok_shape hok
    rw [h5]
    exact ice_generate_hazards_supported h2

/-- C4 witness: the support theorem applied to the three concrete runs at
width 1400, height 600. -/
theorem C4_witness :
    (∀ k ∈ grassBp1400.spikes, spike_supported grassBp1400.platforms 600 k) ∧
    (∀ k ∈ desertBp1400.spikes, spike_supported desertBp1400.platforms 600 k) ∧
    (∀ k ∈ iceBp1400.spikes, spike_supported iceBp1400.platforms 600 k) :=
  ⟨C4_hazards_supported.1 1400 600 ⟨0, listStream grassDraws1400⟩
      ⟨33, listStream grassDraws1400⟩ grassBp1400 grassRun1400_eq,
   C4_hazards_supported.2.1 1400 600 ⟨0, listStream desertDraws1400⟩
      ⟨93, listStream desertDraws1400⟩ desertBp1400 desertRun1400_eq,
   C4_hazards_supported.2.2 1400 600 ⟨0, listStream iceDraws1400⟩
      ⟨45, listStream iceDraws1400⟩ iceBp1400 iceRun1400_eq⟩
